import Mathlib

/-!
# Smart irrigation system: account registration and login

A shallow embedding of

* `src/server/routes/auth.js` (the `POST /register` and `POST /login` handlers),
* `src/server/models/User.js` (the Mongoose schema of a user), and
* `src/components/AuthPage.tsx` (the browser form and its `handleAuthAction`),

followed by the properties of those functions.

The route handlers are written against a `Backend`: the modules the route file
`require`s (`User`, `ActivityLog`, `bcryptjs`, `jsonwebtoken`) and the process
environment.  Every call into a backend may throw, and a handler run records the
calls it made, in order.
-/

namespace Irrigation

/-! ## JavaScript values -/

/-- A JavaScript value as the handlers see it: a parsed JSON value, or `undefined`
(the value of a property that is absent).  Numbers are the integer-valued ones; the
handlers only ever test a number for being zero. -/
inductive JsVal where
  | undefined
  | null
  | bool (b : Bool)
  | num (n : Int)
  | str (s : String)
  | arr (items : List JsVal)
  | obj (props : List (String × JsVal))

/-- JavaScript truthiness (`!v` is the negation): `undefined`, `null`, `false`, `0`
and the empty string are falsy, every array and object is truthy. -/
def JsVal.truthy : JsVal → Bool
  | .undefined => false
  | .null => false
  | .bool b => b
  | .num n => n != 0
  | .str s => s != ""
  | .arr _ => true
  | .obj _ => true

/-- Own-property read `o.key` on the property list of an object: the value, or
`undefined` when the object has no such property. -/
def getProp (props : List (String × JsVal)) (key : String) : JsVal :=
  (props.lookup key).getD JsVal.undefined

/-- The names of the properties of an object value, in order (no names for a value
that is not an object). -/
def JsVal.keys : JsVal → List String
  | .obj props => props.map Prod.fst
  | _ => []

/-- The property read `v.key` on an object value (`undefined` on any other value). -/
def JsVal.get (v : JsVal) (key : String) : JsVal :=
  match v with
  | .obj props => getProp props key
  | _ => JsVal.undefined

/-- A thrown JavaScript exception. -/
structure Exn where
  name : String
  message : String
deriving DecidableEq, Repr

/-! ## Server data model -/

/-- A MongoDB ObjectId, written as its hexadecimal text. -/
abbrev ObjectId := String

/-- A document of the `User` model (`src/server/models/User.js`): `email`,
`passwordHash`, optional `name` (a string, `null`, or `undefined` when absent) and
`roles`.  The timestamps are not modelled. -/
structure User where
  _id : ObjectId
  email : String
  passwordHash : String
  name : JsVal
  roles : List String

/-- Modelled from the spec: the `ActivityLog` model (`src/server/models/ActivityLog.js`
is not among the sources).  An entry holds a reference to the owning user, an action
label, and the originating IP and user-agent; these are the four fields the route
handlers pass to `ActivityLog.create`. -/
structure ActivityDoc where
  user : ObjectId
  action : String
  ip : JsVal
  userAgent : JsVal

/-- An HTTP request as a handler reads it: the own properties of `req.body` (the
object `express.json()` parsed), `req.ip` and `req.headers['user-agent']`. -/
structure Request where
  body : List (String × JsVal)
  ip : JsVal
  userAgent : JsVal

/-- An HTTP response: the status code and the value handed to `res.json`. -/
structure Response where
  status : Nat
  body : JsVal

/-- The value `{ error: msg }`. -/
def errorBody (msg : String) : JsVal :=
  JsVal.obj [("error", JsVal.str msg)]

/-- The array of strings `roles` as a JavaScript value. -/
def rolesVal (roles : List String) : JsVal :=
  JsVal.arr (roles.map JsVal.str)

/-- One call a handler makes into the modules it requires, with its arguments. -/
inductive Call where
  | findOne (email : JsVal)
  | hash (password : JsVal) (rounds : Nat)
  | createUser (email : JsVal) (passwordHash : String) (name : JsVal)
  | compare (password : JsVal) (passwordHash : String)
  | sign (payload : JsVal) (secret : JsVal) (expiresIn : String)
  | createActivity (entry : ActivityDoc)

/-- The modules the route file requires, over a world state `σ` (the database and
whatever else the libraries depend on).  Each operation may throw.  The two `create`
operations return the new world as well; the others only read it.
`jwtSecret` is `process.env.JWT_SECRET`. -/
structure Backend (σ : Type) where
  findOne : JsVal → σ → Except Exn (Option User)
  hash : JsVal → Nat → σ → Except Exn String
  createUser : JsVal → String → JsVal → σ → Except Exn User × σ
  createActivity : ActivityDoc → σ → Except Exn Unit × σ
  compare : JsVal → String → σ → Except Exn Bool
  sign : JsVal → JsVal → String → σ → Except Exn String
  jwtSecret : JsVal

/-! ## Effectful computations of a handler -/

/-- The result of running a piece of handler code from a world: the value it
produced or the exception it threw, the world it left, and the calls it made. -/
structure Step (σ α : Type) where
  result : Except Exn α
  world : σ
  calls : List Call

/-- A piece of handler code. -/
def Eff (σ α : Type) : Type := σ → Step σ α

/-- Handler code that produces `a` and does nothing else. -/
def Eff.ret {σ α : Type} (a : α) : Eff σ α :=
  fun w => ⟨Except.ok a, w, []⟩

/-- Sequencing (`await` then continue): when the first part throws, the rest does
not run. -/
def Eff.andThen {σ α β : Type} (m : Eff σ α) (f : α → Eff σ β) : Eff σ β :=
  fun w =>
    match m w with
    | ⟨Except.error e, w1, cs⟩ => ⟨Except.error e, w1, cs⟩
    | ⟨Except.ok a, w1, cs⟩ =>
      match f a w1 with
      | ⟨r, w2, cs2⟩ => ⟨r, w2, cs ++ cs2⟩

instance {σ : Type} : Monad (Eff σ) where
  pure := Eff.ret
  bind := Eff.andThen

/-- `await User.findOne({ email })`. -/
def callFindOne {σ : Type} (B : Backend σ) (email : JsVal) : Eff σ (Option User) :=
  fun w => ⟨B.findOne email w, w, [Call.findOne email]⟩

/-- `await bcrypt.hash(password, rounds)`. -/
def callHash {σ : Type} (B : Backend σ) (password : JsVal) (rounds : Nat) : Eff σ String :=
  fun w => ⟨B.hash password rounds w, w, [Call.hash password rounds]⟩

/-- `await User.create({ email, passwordHash, name })`. -/
def callCreateUser {σ : Type} (B : Backend σ) (email : JsVal) (passwordHash : String)
    (name : JsVal) : Eff σ User :=
  fun w => ⟨(B.createUser email passwordHash name w).1, (B.createUser email passwordHash name w).2,
    [Call.createUser email passwordHash name]⟩

/-- `await ActivityLog.create(entry)`. -/
def callCreateActivity {σ : Type} (B : Backend σ) (entry : ActivityDoc) : Eff σ Unit :=
  fun w => ⟨(B.createActivity entry w).1, (B.createActivity entry w).2,
    [Call.createActivity entry]⟩

/-- `await bcrypt.compare(password, passwordHash)`. -/
def callCompare {σ : Type} (B : Backend σ) (password : JsVal) (passwordHash : String) :
    Eff σ Bool :=
  fun w => ⟨B.compare password passwordHash w, w, [Call.compare password passwordHash]⟩

/-- `jwt.sign(payload, secret, { expiresIn })`. -/
def callSign {σ : Type} (B : Backend σ) (payload secret : JsVal) (expiresIn : String) :
    Eff σ String :=
  fun w => ⟨B.sign payload secret expiresIn w, w, [Call.sign payload secret expiresIn]⟩

/-- What a handler run leaves behind: the response sent, the world, the calls made in
order, and what was written with `console.error`. -/
structure Run (σ : Type) where
  response : Response
  world : σ
  calls : List Call
  logged : List Exn

/-! ## `src/server/routes/auth.js` -/

/-- The `try` block of `router.post('/register', ...)`. -/
def registerBody {σ : Type} (B : Backend σ) (req : Request) : Eff σ Response :=
  let email := getProp req.body "email"
  let password := getProp req.body "password"
  let name := getProp req.body "name"
  if !email.truthy || !password.truthy then
    pure ⟨400, errorBody "Email and password required"⟩
  else do
    let existing ← callFindOne B email
    match existing with
    | some _ => pure ⟨409, errorBody "Email already in use"⟩
    | none =>
      let passwordHash ← callHash B password 10
      let user ← callCreateUser B email passwordHash name
      callCreateActivity B ⟨user._id, "register", req.ip, req.userAgent⟩
      pure ⟨201, JsVal.obj [("id", JsVal.str user._id), ("email", JsVal.str user.email)]⟩

/-- The handler `router.post('/register', ...)`: the `try` block, and the `catch`
that logs the exception and answers 500. -/
def register {σ : Type} (B : Backend σ) (req : Request) (w : σ) : Run σ :=
  match registerBody B req w with
  | ⟨Except.ok res, w1, cs⟩ => ⟨res, w1, cs, []⟩
  | ⟨Except.error e, w1, cs⟩ => ⟨⟨500, errorBody "Registration failed"⟩, w1, cs, [e]⟩

/-- The `try` block of `router.post('/login', ...)`. -/
def loginBody {σ : Type} (B : Backend σ) (req : Request) : Eff σ Response :=
  let email := getProp req.body "email"
  let password := getProp req.body "password"
  do
    let found ← callFindOne B email
    match found with
    | none => pure ⟨401, errorBody "Invalid credentials"⟩
    | some user =>
      let ok ← callCompare B password user.passwordHash
      if !ok then
        pure ⟨401, errorBody "Invalid credentials"⟩
      else do
        let token ← callSign B
          (JsVal.obj [("id", JsVal.str user._id), ("email", JsVal.str user.email),
            ("roles", rolesVal user.roles)])
          B.jwtSecret "7d"
        callCreateActivity B ⟨user._id, "login", req.ip, req.userAgent⟩
        pure ⟨200, JsVal.obj [("token", JsVal.str token),
          ("user", JsVal.obj [("id", JsVal.str user._id), ("email", JsVal.str user.email),
            ("name", user.name), ("roles", rolesVal user.roles)])]⟩

/-- The handler `router.post('/login', ...)`: the `try` block, and the `catch` that
logs the exception and answers 500. -/
def login {σ : Type} (B : Backend σ) (req : Request) (w : σ) : Run σ :=
  match loginBody B req w with
  | ⟨Except.ok res, w1, cs⟩ => ⟨res, w1, cs, []⟩
  | ⟨Except.error e, w1, cs⟩ => ⟨⟨500, errorBody "Login failed"⟩, w1, cs, [e]⟩

/-! ## An in-memory store for the `User` schema -/

/-- The database: the `users` collection and the activity log, oldest document first. -/
structure Db where
  users : List User
  activity : List ActivityDoc

/-- The parts of Mongoose and of the JavaScript runtime that the `User` schema relies
on: the caster of the `String` schema type (it throws a `CastError` on a value it
cannot turn into a string) and `String.prototype.toLowerCase`. -/
structure Mongoose where
  castString : JsVal → Except Exn String
  toLowerCase : String → String

/-- What varies from one request to the next: the ObjectId the driver generates, the
outcome of `bcrypt.hash` (salted) and `bcrypt.compare`, the outcome of `jwt.sign`
(it reads the clock), and `process.env.JWT_SECRET`. -/
structure Ambient where
  newObjectId : ObjectId
  bcryptHash : JsVal → Nat → Except Exn String
  bcryptCompare : JsVal → String → Except Exn Bool
  jwtSign : JsVal → JsVal → String → Except Exn String
  jwtSecret : JsVal

/-- The exception of a failed schema validation (a `required` path is empty). -/
def validationError : Exn := ⟨"ValidationError", "User validation failed"⟩

/-- The exception of the unique index on `email` (MongoDB error E11000). -/
def duplicateKeyError : Exn := ⟨"MongoServerError", "E11000 duplicate key error"⟩

/-- The `email` path of the schema, `type: String, lowercase: true`: the value is
cast to a string and lower-cased.  Mongoose applies this to the value in a new
document and to the value in a query filter alike. -/
def castEmail (M : Mongoose) (v : JsVal) : Except Exn String :=
  match M.castString v with
  | Except.error e => Except.error e
  | Except.ok s => Except.ok (M.toLowerCase s)

/-- The `name` path of the schema, `type: String`, not required: absent stays absent,
`null` stays `null`, anything else is cast to a string. -/
def castName (M : Mongoose) : JsVal → Except Exn JsVal
  | JsVal.undefined => Except.ok JsVal.undefined
  | JsVal.null => Except.ok JsVal.null
  | v =>
    match M.castString v with
    | Except.error e => Except.error e
    | Except.ok s => Except.ok (JsVal.str s)

/-- `User.findOne({ email })` on the in-memory store: the first user whose email is
the cast filter value, or `null`. -/
def memFindOne (M : Mongoose) (email : JsVal) (db : Db) : Except Exn (Option User) :=
  match castEmail M email with
  | Except.error e => Except.error e
  | Except.ok key => Except.ok (db.users.find? (fun u => u.email == key))

/-- `User.create({ email, passwordHash, name })` on the in-memory store: cast the
paths, check the two `required` paths, check the unique index on `email`, then append
the document with the default `roles: ['user']`.  A failed call leaves the database
as it was. -/
def memCreateUser (M : Mongoose) (newId : ObjectId) (email : JsVal) (passwordHash : String)
    (name : JsVal) (db : Db) : Except Exn User × Db :=
  match castEmail M email with
  | Except.error e => (Except.error e, db)
  | Except.ok key =>
    match castName M name with
    | Except.error e => (Except.error e, db)
    | Except.ok nm =>
      if key = "" ∨ passwordHash = "" then (Except.error validationError, db)
      else if db.users.any (fun u => u.email == key) then (Except.error duplicateKeyError, db)
      else
        (Except.ok ⟨newId, key, passwordHash, nm, ["user"]⟩,
          { db with users := db.users ++ [⟨newId, key, passwordHash, nm, ["user"]⟩] })

/-- `ActivityLog.create(entry)` on the in-memory store: append the entry. -/
def memCreateActivity (entry : ActivityDoc) (db : Db) : Except Exn Unit × Db :=
  (Except.ok (), { db with activity := db.activity ++ [entry] })

/-- The backend made of the in-memory store and the ambient libraries. -/
def memBackend (M : Mongoose) (A : Ambient) : Backend Db where
  findOne := memFindOne M
  hash := fun password rounds _ => A.bcryptHash password rounds
  createUser := memCreateUser M A.newObjectId
  createActivity := memCreateActivity
  compare := fun password passwordHash _ => A.bcryptCompare password passwordHash
  sign := fun payload secret expiresIn _ => A.jwtSign payload secret expiresIn
  jwtSecret := A.jwtSecret

/-! ## `src/components/AuthPage.tsx` -/

/-- An IEEE 754 double by its three bit fields: the sign, the 11-bit exponent and the
52-bit fraction.  This is what a JavaScript number is. -/
structure Double where
  sign : Bool
  exponent : Fin 2048
  fraction : Fin 4503599627370496
deriving DecidableEq

/-- The number is neither an infinity nor a NaN. -/
def Double.isFinite (d : Double) : Bool := d.exponent != 2047

/-- The number is `+0` or `-0`. -/
def Double.isZero (d : Double) : Bool := d.exponent == 0 && d.fraction == 0

/-- The number is a NaN. -/
def Double.isNaN (d : Double) : Bool := d.exponent == 2047 && d.fraction != 0

/-- A value `JSON.parse` returns (never `undefined`; the value `undefined` of an
absent property is `none` of an `Option JsonVal`).  A number literal beyond the range
of a double, such as `1e400`, parses to an infinity.  The properties of an object are
listed in the order JavaScript enumerates them. -/
inductive JsonVal where
  | null
  | bool (b : Bool)
  | num (d : Double)
  | str (s : String)
  | arr (items : List JsonVal)
  | obj (props : List (String × JsonVal))

/-- JavaScript truthiness of a parsed value: `null`, `false`, the zeros, NaN and the
empty string are falsy. -/
def JsonVal.truthy : JsonVal → Bool
  | .null => false
  | .bool b => b
  | .num d => !(d.isZero || d.isNaN)
  | .str s => s != ""
  | .arr _ => true
  | .obj _ => true

/-- Truthiness of a value that may be `undefined`. -/
def truthyOpt : Option JsonVal → Bool
  | none => false
  | some v => v.truthy

/-- `JSON.parse(JSON.stringify(d))` for a number: an infinity or a NaN is written as
`null`, a zero is written as `0` (so `-0` comes back as `+0`), and any other number is
written in a form that parses back to the same double. -/
def reparseNum (d : Double) : JsonVal :=
  if d.isFinite then
    (if d.isZero then JsonVal.num ⟨false, 0, 0⟩ else JsonVal.num d)
  else JsonVal.null

mutual
/-- `JSON.parse(JSON.stringify(v))`: what is read back after `v` was stored. -/
def JsonVal.reparse : JsonVal → JsonVal
  | .null => .null
  | .bool b => .bool b
  | .num d => reparseNum d
  | .str s => .str s
  | .arr items => .arr (reparseItems items)
  | .obj props => .obj (reparseProps props)
/-- `JsonVal.reparse` on the elements of an array. -/
def reparseItems : List JsonVal → List JsonVal
  | [] => []
  | v :: rest => v.reparse :: reparseItems rest
/-- `JsonVal.reparse` on the property values of an object. -/
def reparseProps : List (String × JsonVal) → List (String × JsonVal)
  | [] => []
  | (k, v) :: rest => (k, v.reparse) :: reparseProps rest
end

/-- The React state of `AuthPage`. -/
structure Ui where
  isLoginView : Bool
  username : String
  password : String
  error : String
  success : String

/-- The text stored under the `localStorage` key `irrigation_users`, described by
what `JSON.parse(localStorage.getItem('irrigation_users') || '[]')` makes of it:
nothing stored (or the empty text), a text that `JSON.parse` rejects, or a text that
parses to `v`.  The storage area is taken to be readable and writable. -/
inductive Item where
  | missing
  | invalid (raw : String)
  | json (v : JsonVal)

/-- The browser side: the component state, the stored item, the delays in milliseconds
of the pending `setTimeout(onLoginSuccess, delay)` calls, the number of direct calls of
`onLoginSuccess`, and what was written with `console.error`. -/
structure Client where
  ui : Ui
  stored : Item
  timers : List Nat
  entered : Nat
  console : List Exn

/-- The exception of `JSON.parse` on a malformed text. -/
def syntaxError : Exn := ⟨"SyntaxError", "JSON.parse"⟩

/-- The exception of reading a property of `null`, or of calling what is not a
function. -/
def typeError : Exn := ⟨"TypeError", ""⟩

/-- `JSON.parse(localStorage.getItem('irrigation_users') || '[]')`. -/
def parseUsers : Item → Except Exn JsonVal
  | Item.missing => Except.ok (JsonVal.arr [])
  | Item.invalid _ => Except.error syntaxError
  | Item.json v => Except.ok v

/-- `localStorage.setItem('irrigation_users', JSON.stringify(v))`: the item is then a
text that parses to `JSON.parse(JSON.stringify(v))`. -/
def setUsers (v : JsonVal) : Item :=
  Item.json v.reparse

/-- The property read `u.key` for the keys `username` and `password`: a `TypeError` on
`null`, the own property of an object (`undefined` when it has none), `undefined` on
any other value. -/
def propOf (u : JsonVal) (key : String) : Except Exn (Option JsonVal) :=
  match u with
  | JsonVal.null => Except.error typeError
  | JsonVal.obj props => Except.ok (props.lookup key)
  | _ => Except.ok none

/-- The comparison `v === s` of a value with a string. -/
def strictEqStr (v : Option JsonVal) (s : String) : Bool :=
  match v with
  | some (JsonVal.str t) => t == s
  | _ => false

/-- The callback `u => u.username === username && u.password === password`. -/
def loginMatch (username password : String) (u : JsonVal) : Except Exn Bool :=
  match propOf u "username" with
  | Except.error e => Except.error e
  | Except.ok a =>
    if strictEqStr a username then
      match propOf u "password" with
      | Except.error e => Except.error e
      | Except.ok b => Except.ok (strictEqStr b password)
    else Except.ok false

/-- The callback `u => u.username === username`. -/
def nameMatch (username : String) (u : JsonVal) : Except Exn Bool :=
  match propOf u "username" with
  | Except.error e => Except.error e
  | Except.ok a => Except.ok (strictEqStr a username)

/-- `Array.prototype.find` over the elements: the first element the callback accepts,
`undefined` when there is none; an exception of the callback ends the search. -/
def findItems (pred : JsonVal → Except Exn Bool) : List JsonVal → Except Exn (Option JsonVal)
  | [] => Except.ok none
  | u :: rest =>
    match pred u with
    | Except.error e => Except.error e
    | Except.ok true => Except.ok (some u)
    | Except.ok false => findItems pred rest

/-- `Array.prototype.some` over the elements. -/
def someItems (pred : JsonVal → Except Exn Bool) : List JsonVal → Except Exn Bool
  | [] => Except.ok false
  | u :: rest =>
    match pred u with
    | Except.error e => Except.error e
    | Except.ok true => Except.ok true
    | Except.ok false => someItems pred rest

/-- `users.find(callback)`: a `TypeError` unless `users` is an array. -/
def usersFind (users : JsonVal) (pred : JsonVal → Except Exn Bool) :
    Except Exn (Option JsonVal) :=
  match users with
  | JsonVal.arr items => findItems pred items
  | _ => Except.error typeError

/-- `users.some(callback)`: a `TypeError` unless `users` is an array. -/
def usersSome (users : JsonVal) (pred : JsonVal → Except Exn Bool) : Except Exn Bool :=
  match users with
  | JsonVal.arr items => someItems pred items
  | _ => Except.error typeError

/-- The elements `...users` spreads (where it is reached, `users` is an array). -/
def spread : JsonVal → List JsonVal
  | JsonVal.arr items => items
  | _ => []

/-- The entry `{ username, password }`. -/
def newEntry (username password : String) : JsonVal :=
  JsonVal.obj [("username", JsonVal.str username), ("password", JsonVal.str password)]

/-- The `try` block of `handleAuthAction`, after the two messages were cleared. -/
def authTry (c : Client) : Except Exn Client :=
  match parseUsers c.stored with
  | Except.error e => Except.error e
  | Except.ok users =>
    if c.ui.isLoginView then
      match usersFind users (loginMatch c.ui.username c.ui.password) with
      | Except.error e => Except.error e
      | Except.ok user =>
        if truthyOpt user then
          Except.ok { c with
            ui := { c.ui with error := "", success := "Login successful!" }
            timers := c.timers ++ [1000] }
        else
          Except.ok { c with
            ui := { c.ui with error := "Invalid username or password.", success := "" } }
    else
      match usersSome users (nameMatch c.ui.username) with
      | Except.error e => Except.error e
      | Except.ok userExists =>
        if userExists then
          Except.ok { c with
            ui := { c.ui with error := "Username already exists.", success := "" } }
        else
          Except.ok { c with
            stored := setUsers (JsonVal.arr
              (spread users ++ [newEntry c.ui.username c.ui.password]))
            ui := ⟨true, "", "", "", "Registration successful! Please log in."⟩ }

/-- The submit handler `handleAuthAction`: clear both messages, check the two fields,
run the `try` block, and in the `catch` set the generic error and log the exception. -/
def handleAuthAction (c : Client) : Client :=
  if c.ui.username = "" ∨ c.ui.password = "" then
    { c with ui := { c.ui with error := "Username and password are required.", success := "" } }
  else
    match authTry c with
    | Except.ok c1 => c1
    | Except.error e =>
      { c with
        ui := { c.ui with error := "An error occurred. Please try again.", success := "" }
        console := c.console ++ [e] }

/-- `handleGoogleLogin`: call `onLoginSuccess` at once. -/
def handleGoogleLogin (c : Client) : Client :=
  { c with entered := c.entered + 1 }

/-- What the user can do on the page. -/
inductive Event where
  | typeUsername (value : String)
  | typePassword (value : String)
  | toggleView
  | submit
  | googleLogin

/-- The event handlers of the component: the two `onChange` handlers, the `onClick`
of the view toggle, the form's `onSubmit`, and the Google button. -/
def Client.step (c : Client) : Event → Client
  | Event.typeUsername v => { c with ui := { c.ui with username := v } }
  | Event.typePassword v => { c with ui := { c.ui with password := v } }
  | Event.toggleView => { c with ui := ⟨!c.ui.isLoginView, "", "", "", ""⟩ }
  | Event.submit => handleAuthAction c
  | Event.googleLogin => handleGoogleLogin c

/-- The page after a sequence of events. -/
def Client.run (c : Client) (events : List Event) : Client :=
  events.foldl Client.step c

/-- The stored user list, when the stored text is an array (nothing stored counts as
the empty array). -/
def storedItems : Item → Option (List JsonVal)
  | Item.missing => some []
  | Item.json (JsonVal.arr items) => some items
  | _ => none

/-- The `username` of a stored entry: its own property, `undefined` when the entry has
none or is not an object. -/
def entryUsername : JsonVal → Option JsonVal
  | JsonVal.obj props => props.lookup "username"
  | _ => none

/-- The usernames of the stored list, in order (none when the stored text is not an
array). -/
def storedUsernames (i : Item) : List (Option JsonVal) :=
  ((storedItems i).getD []).map entryUsername

/-- The stored item as `JSON.stringify` would write it back. -/
def rewritten : Item → Item
  | Item.json v => Item.json v.reparse
  | i => i

/-- The double `Infinity`, which the number literal `1e400` parses to. -/
def infinity : Double := ⟨false, 2047, 0⟩

/-! ## Sample values -/

/-- A caster that accepts strings only, with ASCII lower-casing. -/
def sampleMongoose : Mongoose where
  castString := fun v =>
    match v with
    | JsVal.str s => Except.ok s
    | _ => Except.error ⟨"CastError", "Cast to string failed"⟩
  toLowerCase := fun s => String.mk (s.data.map Char.toLower)

/-- Libraries that hash a string password by prefixing it, compare accordingly, sign
every payload as the token `t0`, and, as bcryptjs does (`Illegal arguments`), throw on
a password that is not a string. -/
def sampleAmbient : Ambient where
  newObjectId := "65a1"
  bcryptHash := fun password _ =>
    match password with
    | JsVal.str s => Except.ok ("$2a$10$" ++ s)
    | _ => Except.error ⟨"Error", "Illegal arguments"⟩
  bcryptCompare := fun password passwordHash =>
    match password with
    | JsVal.str s => Except.ok (("$2a$10$" ++ s) == passwordHash)
    | _ => Except.error ⟨"Error", "Illegal arguments"⟩
  jwtSign := fun _ _ _ => Except.ok "t0"
  jwtSecret := JsVal.str "s3cret"

/-- A request with the given `email` and `password` and nothing else. -/
def sampleRequest (email password : String) : Request :=
  ⟨[("email", JsVal.str email), ("password", JsVal.str password)], JsVal.str "::1",
    JsVal.undefined⟩

/-- The user that registering `a@x.com` with `pw1` stores under the sample libraries. -/
def sampleUser : User := ⟨"65a1", "a@x.com", "$2a$10$pw1", JsVal.undefined, ["user"]⟩

/-- A database holding `sampleUser` and nothing else. -/
def sampleDb : Db := ⟨[sampleUser], []⟩

/-- A backend all of whose operations throw `e`. -/
def failingBackend (e : Exn) : Backend Unit where
  findOne := fun _ _ => Except.error e
  hash := fun _ _ _ => Except.error e
  createUser := fun _ _ _ w => (Except.error e, w)
  createActivity := fun _ w => (Except.error e, w)
  compare := fun _ _ _ => Except.error e
  sign := fun _ _ _ _ => Except.error e
  jwtSecret := JsVal.undefined


/-- The outcome of a Register-view submit as the specification words it, for a stored
list `items`: with an empty field the required-fields error and nothing else changed;
otherwise, with a stored entry of the same username, the exists error and nothing else
changed; otherwise the entry is appended at the end, the view is Login and the fields
are empty. -/
def RegisterSubmitSpec (items : List JsonVal) (c : Client) : Prop :=
  ((c.ui.username = "" ∨ c.ui.password = "") →
    (handleAuthAction c).ui.error = "Username and password are required." ∧
    (handleAuthAction c).stored = c.stored ∧
    (handleAuthAction c).ui.isLoginView = c.ui.isLoginView ∧
    (handleAuthAction c).ui.username = c.ui.username ∧
    (handleAuthAction c).ui.password = c.ui.password) ∧
  (¬ (c.ui.username = "" ∨ c.ui.password = "") →
    (∃ e ∈ items, entryUsername e = some (JsonVal.str c.ui.username)) →
    (handleAuthAction c).ui.error = "Username already exists." ∧
    (handleAuthAction c).stored = c.stored ∧
    (handleAuthAction c).ui.isLoginView = c.ui.isLoginView ∧
    (handleAuthAction c).ui.username = c.ui.username ∧
    (handleAuthAction c).ui.password = c.ui.password) ∧
  (¬ (c.ui.username = "" ∨ c.ui.password = "") →
    ¬ (∃ e ∈ items, entryUsername e = some (JsonVal.str c.ui.username)) →
    storedItems (handleAuthAction c).stored =
      some (items ++ [newEntry c.ui.username c.ui.password]) ∧
    (handleAuthAction c).ui.isLoginView = true ∧
    (handleAuthAction c).ui.username = "" ∧
    (handleAuthAction c).ui.password = "")

/-- A page in the given view with the given fields, no message, and the given stored
item. -/
def samplePage (isLoginView : Bool) (username password : String) (stored : Item) : Client :=
  ⟨⟨isLoginView, username, password, "", ""⟩, stored, [], 0, []⟩

/-! ## Properties of the register and login handlers -/

/-- C1. `POST /register` with a missing or falsy `email` or `password` answers 400
with the body `error: 'Email and password required'`, whatever the backend and the
world: the run makes no call at all (no lookup, no hashing, no user or activity entry
is created), leaves the world as it was and logs nothing. -/
theorem register_missing_field {σ : Type} (B : Backend σ) (req : Request) (w : σ)
    (h : (getProp req.body "email").truthy = false ∨
      (getProp req.body "password").truthy = false) :
    register B req w =
      ⟨⟨400, JsVal.obj [("error", JsVal.str "Email and password required")]⟩, w, [], []⟩ := by
  have hc : (!(getProp req.body "email").truthy || !(getProp req.body "password").truthy)
      = true := by
    rcases h with h | h <;> simp [h]
  simp only [register, registerBody, hc]
  rfl

/-- Witness of C1: a body with an empty-string email and no password at all. -/
theorem register_missing_field_witness :
    register (memBackend sampleMongoose sampleAmbient)
      ⟨[("email", JsVal.str "")], JsVal.undefined, JsVal.undefined⟩ sampleDb =
      ⟨⟨400, JsVal.obj [("error", JsVal.str "Email and password required")]⟩,
        sampleDb, [], []⟩ :=
  register_missing_field _ _ _ (Or.inl rfl)

/-- A login whose email is not found, and a login whose email is found but whose
password `bcrypt.compare` answers `false` for, get the same response, 401 with the
body `error: 'Invalid credentials'`, in every world.  In neither run is a token signed
or an activity entry created (the calls are the lookup, and the lookup and the
comparison), and the world is left as it was. -/
theorem login_uniform_failure {σ : Type} (B : Backend σ) (reqA reqB : Request) (wA wB : σ)
    (u : User)
    (hA : B.findOne (getProp reqA.body "email") wA = Except.ok none)
    (hB : B.findOne (getProp reqB.body "email") wB = Except.ok (some u))
    (hpw : B.compare (getProp reqB.body "password") u.passwordHash wB = Except.ok false) :
    (login B reqA wA).response = (login B reqB wB).response ∧
    (login B reqA wA).response =
      ⟨401, JsVal.obj [("error", JsVal.str "Invalid credentials")]⟩ ∧
    (login B reqA wA).calls = [Call.findOne (getProp reqA.body "email")] ∧
    (login B reqB wB).calls = [Call.findOne (getProp reqB.body "email"),
      Call.compare (getProp reqB.body "password") u.passwordHash] ∧
    (login B reqA wA).world = wA ∧ (login B reqB wB).world = wB := by
  simp [login, loginBody, bind, Eff.andThen, pure, Eff.ret, callFindOne, callCompare,
    hA, hB, hpw, errorBody]

/-- C5. A login whose user is found and whose password `bcrypt.compare` accepts
(the signing and the activity write succeeding) answers 200 with the body
`token, user`: the token is the one `jwt.sign` returned for the payload `id, email,
roles` of the stored user, the secret of the environment and `expiresIn: '7d'`, and
`user` has exactly the properties `id, email, name, roles`, with the values of the
stored user.  The password hash occurs in the comparison only. -/
theorem login_success {σ : Type} (B : Backend σ) (req : Request) (w w1 : σ) (u : User)
    (token : String)
    (hf : B.findOne (getProp req.body "email") w = Except.ok (some u))
    (hpw : B.compare (getProp req.body "password") u.passwordHash w = Except.ok true)
    (hs : B.sign (JsVal.obj [("id", JsVal.str u._id), ("email", JsVal.str u.email),
        ("roles", rolesVal u.roles)]) B.jwtSecret "7d" w = Except.ok token)
    (ha : B.createActivity ⟨u._id, "login", req.ip, req.userAgent⟩ w = (Except.ok (), w1)) :
    login B req w =
      ⟨⟨200, JsVal.obj [("token", JsVal.str token),
          ("user", JsVal.obj [("id", JsVal.str u._id), ("email", JsVal.str u.email),
            ("name", u.name), ("roles", rolesVal u.roles)])]⟩,
        w1,
        [Call.findOne (getProp req.body "email"),
          Call.compare (getProp req.body "password") u.passwordHash,
          Call.sign (JsVal.obj [("id", JsVal.str u._id), ("email", JsVal.str u.email),
            ("roles", rolesVal u.roles)]) B.jwtSecret "7d",
          Call.createActivity ⟨u._id, "login", req.ip, req.userAgent⟩],
        []⟩ ∧
    (login B req w).response.body.keys = ["token", "user"] ∧
    ((login B req w).response.body.get "user").keys = ["id", "email", "name", "roles"] := by
  have h1 : login B req w =
      ⟨⟨200, JsVal.obj [("token", JsVal.str token),
          ("user", JsVal.obj [("id", JsVal.str u._id), ("email", JsVal.str u.email),
            ("name", u.name), ("roles", rolesVal u.roles)])]⟩,
        w1,
        [Call.findOne (getProp req.body "email"),
          Call.compare (getProp req.body "password") u.passwordHash,
          Call.sign (JsVal.obj [("id", JsVal.str u._id), ("email", JsVal.str u.email),
            ("roles", rolesVal u.roles)]) B.jwtSecret "7d",
          Call.createActivity ⟨u._id, "login", req.ip, req.userAgent⟩],
        []⟩ := by
    simp [login, loginBody, bind, Eff.andThen, pure, Eff.ret, callFindOne, callCompare,
      callSign, callCreateActivity, hf, hpw, hs, ha]
  refine ⟨h1, ?_, ?_⟩
  · rw [h1]; rfl
  · rw [h1]; rfl

/-- C3, failing input. When `bcrypt.compare` throws for the password sent, which
bcryptjs does for a password that is absent or not a string, a login for an email
that exists is answered 500 with `error: 'Login failed'` while the same login for an
email that does not exist is answered 401 with `error: 'Invalid credentials'`: the
response tells whether the email exists.  The login handler has no missing-field
check like the one of the register handler. -/
theorem login_missing_password_leak {σ : Type} (B : Backend σ) (reqA reqB : Request)
    (wA wB : σ) (u : User) (e : Exn)
    (hA : B.findOne (getProp reqA.body "email") wA = Except.ok none)
    (hB : B.findOne (getProp reqB.body "email") wB = Except.ok (some u))
    (hthrow : B.compare (getProp reqB.body "password") u.passwordHash wB = Except.error e) :
    (login B reqA wA).response =
      ⟨401, JsVal.obj [("error", JsVal.str "Invalid credentials")]⟩ ∧
    (login B reqB wB).response = ⟨500, JsVal.obj [("error", JsVal.str "Login failed")]⟩ ∧
    (login B reqA wA).response ≠ (login B reqB wB).response := by
  have h1 : (login B reqA wA).response =
      ⟨401, JsVal.obj [("error", JsVal.str "Invalid credentials")]⟩ := by
    simp [login, loginBody, bind, Eff.andThen, pure, Eff.ret, callFindOne, hA, errorBody]
  have h2 : (login B reqB wB).response =
      ⟨500, JsVal.obj [("error", JsVal.str "Login failed")]⟩ := by
    simp [login, loginBody, bind, Eff.andThen, pure, Eff.ret, callFindOne, callCompare,
      hB, hthrow, errorBody]
  refine ⟨h1, h2, ?_⟩
  rw [h1, h2]
  intro h
  have hs := congrArg Response.status h
  simp at hs

/-- Witness of C3, failing input: against the sample store holding `a@x.com`, a login
body with the email only (no password) is answered 401 for `b@x.com` and 500 for
`a@x.com`. -/
theorem login_missing_password_leak_witness :
    (login (memBackend sampleMongoose sampleAmbient)
        ⟨[("email", JsVal.str "b@x.com")], JsVal.str "::1", JsVal.undefined⟩
        sampleDb).response =
      ⟨401, JsVal.obj [("error", JsVal.str "Invalid credentials")]⟩ ∧
    (login (memBackend sampleMongoose sampleAmbient)
        ⟨[("email", JsVal.str "a@x.com")], JsVal.str "::1", JsVal.undefined⟩
        sampleDb).response =
      ⟨500, JsVal.obj [("error", JsVal.str "Login failed")]⟩ :=
  ⟨(login_missing_password_leak (memBackend sampleMongoose sampleAmbient)
      ⟨[("email", JsVal.str "b@x.com")], JsVal.str "::1", JsVal.undefined⟩
      ⟨[("email", JsVal.str "a@x.com")], JsVal.str "::1", JsVal.undefined⟩
      sampleDb sampleDb sampleUser ⟨"Error", "Illegal arguments"⟩ rfl rfl rfl).1,
    (login_missing_password_leak (memBackend sampleMongoose sampleAmbient)
      ⟨[("email", JsVal.str "b@x.com")], JsVal.str "::1", JsVal.undefined⟩
      ⟨[("email", JsVal.str "a@x.com")], JsVal.str "::1", JsVal.undefined⟩
      sampleDb sampleDb sampleUser ⟨"Error", "Illegal arguments"⟩ rfl rfl rfl).2.1⟩

/-- Witness of C5: against the sample store, the login of `a@x.com` with `pw1`. -/
theorem login_success_witness :
    (login (memBackend sampleMongoose sampleAmbient) (sampleRequest "a@x.com" "pw1")
        sampleDb).response.body.keys = ["token", "user"] :=
  (login_success (memBackend sampleMongoose sampleAmbient) (sampleRequest "a@x.com" "pw1")
    sampleDb ⟨[sampleUser], [⟨"65a1", "login", JsVal.str "::1", JsVal.undefined⟩]⟩
    sampleUser "t0" rfl rfl rfl rfl).2.1

/-- C7. An exception thrown by any step of a handler is answered with the generic 500
and nothing of the exception: in `/register` the lookup, the hashing, the user
creation and the activity write, in `/login` the lookup, the comparison, the signing
and the activity write.  The response is the fixed body `error: 'Registration failed'`
(respectively `error: 'Login failed'`), the same for any two exceptions; the exception
is only logged.  The handlers are total functions: no exception leaves them. -/
theorem handler_exception_generic {σ : Type} (B : Backend σ) (req : Request) (w : σ)
    (e : Exn) :
    ((getProp req.body "email").truthy = true → (getProp req.body "password").truthy = true →
      (B.findOne (getProp req.body "email") w = Except.error e ∨
       (B.findOne (getProp req.body "email") w = Except.ok none ∧
        (B.hash (getProp req.body "password") 10 w = Except.error e ∨
         ∃ h, B.hash (getProp req.body "password") 10 w = Except.ok h ∧
          ((B.createUser (getProp req.body "email") h (getProp req.body "name") w).1
              = Except.error e ∨
           ∃ u, (B.createUser (getProp req.body "email") h (getProp req.body "name") w).1
              = Except.ok u ∧
            (B.createActivity ⟨u._id, "register", req.ip, req.userAgent⟩
              (B.createUser (getProp req.body "email") h (getProp req.body "name") w).2).1
              = Except.error e)))) →
      (register B req w).response =
          ⟨500, JsVal.obj [("error", JsVal.str "Registration failed")]⟩ ∧
        (register B req w).logged = [e]) ∧
    ((B.findOne (getProp req.body "email") w = Except.error e ∨
       ∃ u, B.findOne (getProp req.body "email") w = Except.ok (some u) ∧
        (B.compare (getProp req.body "password") u.passwordHash w = Except.error e ∨
         (B.compare (getProp req.body "password") u.passwordHash w = Except.ok true ∧
          (B.sign (JsVal.obj [("id", JsVal.str u._id), ("email", JsVal.str u.email),
              ("roles", rolesVal u.roles)]) B.jwtSecret "7d" w = Except.error e ∨
           ∃ token, B.sign (JsVal.obj [("id", JsVal.str u._id), ("email", JsVal.str u.email),
              ("roles", rolesVal u.roles)]) B.jwtSecret "7d" w = Except.ok token ∧
            (B.createActivity ⟨u._id, "login", req.ip, req.userAgent⟩ w).1
              = Except.error e)))) →
      (login B req w).response = ⟨500, JsVal.obj [("error", JsVal.str "Login failed")]⟩ ∧
        (login B req w).logged = [e]) := by
  constructor
  · intro he hp hstep
    rcases hstep with hf | ⟨hf, hh | ⟨h, hh, hc | ⟨u, hc, ha⟩⟩⟩
    · simp [register, registerBody, bind, Eff.andThen, pure, Eff.ret, callFindOne, he, hp, hf,
        errorBody]
    · simp [register, registerBody, bind, Eff.andThen, pure, Eff.ret, callFindOne, callHash,
        he, hp, hf, hh, errorBody]
    · simp [register, registerBody, bind, Eff.andThen, pure, Eff.ret, callFindOne, callHash,
        callCreateUser, he, hp, hf, hh, hc, errorBody]
    · simp [register, registerBody, bind, Eff.andThen, pure, Eff.ret, callFindOne, callHash,
        callCreateUser, callCreateActivity, he, hp, hf, hh, hc, ha, errorBody]
  · intro hstep
    rcases hstep with hf | ⟨u, hf, hpw | ⟨hpw, hs | ⟨token, hs, ha⟩⟩⟩
    · simp [login, loginBody, bind, Eff.andThen, pure, Eff.ret, callFindOne, hf, errorBody]
    · simp [login, loginBody, bind, Eff.andThen, pure, Eff.ret, callFindOne, callCompare,
        hf, hpw, errorBody]
    · simp [login, loginBody, bind, Eff.andThen, pure, Eff.ret, callFindOne, callCompare,
        callSign, hf, hpw, hs, errorBody]
    · simp [login, loginBody, bind, Eff.andThen, pure, Eff.ret, callFindOne, callCompare,
        callSign, callCreateActivity, hf, hpw, hs, ha, errorBody]

/-- Witness of C7: a backend whose lookup throws a driver error. -/
theorem handler_exception_generic_witness :
    (register (failingBackend ⟨"MongoNetworkError", "connection refused"⟩)
        (sampleRequest "a@x.com" "pw1") ()).response =
      ⟨500, JsVal.obj [("error", JsVal.str "Registration failed")]⟩ ∧
    (login (failingBackend ⟨"MongoNetworkError", "connection refused"⟩)
        (sampleRequest "a@x.com" "pw1") ()).response =
      ⟨500, JsVal.obj [("error", JsVal.str "Login failed")]⟩ :=
  ⟨((handler_exception_generic (failingBackend ⟨"MongoNetworkError", "connection refused"⟩)
      (sampleRequest "a@x.com" "pw1") () ⟨"MongoNetworkError", "connection refused"⟩).1
      rfl rfl (Or.inl rfl)).1,
    ((handler_exception_generic (failingBackend ⟨"MongoNetworkError", "connection refused"⟩)
      (sampleRequest "a@x.com" "pw1") () ⟨"MongoNetworkError", "connection refused"⟩).2
      (Or.inl rfl)).1⟩

/-- A run of `/register` that answers 201 went through every step. -/
theorem register_created {σ : Type} (B : Backend σ) (req : Request) (w : σ)
    (h201 : (register B req w).response.status = 201) :
    ∃ h u, (getProp req.body "email").truthy = true ∧
      (getProp req.body "password").truthy = true ∧
      B.findOne (getProp req.body "email") w = Except.ok none ∧
      B.hash (getProp req.body "password") 10 w = Except.ok h ∧
      (B.createUser (getProp req.body "email") h (getProp req.body "name") w).1 = Except.ok u ∧
      register B req w =
        ⟨⟨201, JsVal.obj [("id", JsVal.str u._id), ("email", JsVal.str u.email)]⟩,
          (B.createActivity ⟨u._id, "register", req.ip, req.userAgent⟩
            (B.createUser (getProp req.body "email") h (getProp req.body "name") w).2).2,
          [Call.findOne (getProp req.body "email"), Call.hash (getProp req.body "password") 10,
            Call.createUser (getProp req.body "email") h (getProp req.body "name"),
            Call.createActivity ⟨u._id, "register", req.ip, req.userAgent⟩],
          []⟩ := by
  cases he : (getProp req.body "email").truthy with
  | false => simp [register, registerBody, pure, Eff.ret, he] at h201
  | true =>
    cases hp : (getProp req.body "password").truthy with
    | false => simp [register, registerBody, pure, Eff.ret, he, hp] at h201
    | true =>
      cases hf : B.findOne (getProp req.body "email") w with
      | error e =>
        simp [register, registerBody, bind, Eff.andThen, pure, Eff.ret, callFindOne, he, hp,
          hf] at h201
      | ok found =>
        cases found with
        | some x =>
          simp [register, registerBody, bind, Eff.andThen, pure, Eff.ret, callFindOne, he, hp,
            hf] at h201
        | none =>
          cases hh : B.hash (getProp req.body "password") 10 w with
          | error e =>
            simp [register, registerBody, bind, Eff.andThen, pure, Eff.ret, callFindOne,
              callHash, he, hp, hf, hh] at h201
          | ok h =>
            cases hc : (B.createUser (getProp req.body "email") h
                (getProp req.body "name") w).1 with
            | error e =>
              simp [register, registerBody, bind, Eff.andThen, pure, Eff.ret, callFindOne,
                callHash, callCreateUser, he, hp, hf, hh, hc] at h201
            | ok u =>
              cases ha : (B.createActivity ⟨u._id, "register", req.ip, req.userAgent⟩
                  (B.createUser (getProp req.body "email") h
                    (getProp req.body "name") w).2).1 with
              | error e =>
                simp [register, registerBody, bind, Eff.andThen, pure, Eff.ret, callFindOne,
                  callHash, callCreateUser, callCreateActivity, he, hp, hf, hh, hc, ha] at h201
              | ok _ =>
                refine ⟨h, u, rfl, rfl, rfl, rfl, hc, ?_⟩
                simp [register, registerBody, bind, Eff.andThen, pure, Eff.ret, callFindOne,
                  callHash, callCreateUser, callCreateActivity, he, hp, hf, hh, hc, ha]

/-- A run of `/login` that answers 200 went through every step. -/
theorem login_accepted {σ : Type} (B : Backend σ) (req : Request) (w : σ)
    (h200 : (login B req w).response.status = 200) :
    ∃ u token, B.findOne (getProp req.body "email") w = Except.ok (some u) ∧
      B.compare (getProp req.body "password") u.passwordHash w = Except.ok true ∧
      B.sign (JsVal.obj [("id", JsVal.str u._id), ("email", JsVal.str u.email),
        ("roles", rolesVal u.roles)]) B.jwtSecret "7d" w = Except.ok token ∧
      (login B req w).world =
        (B.createActivity ⟨u._id, "login", req.ip, req.userAgent⟩ w).2 ∧
      (login B req w).response.body = JsVal.obj [("token", JsVal.str token),
          ("user", JsVal.obj [("id", JsVal.str u._id), ("email", JsVal.str u.email),
            ("name", u.name), ("roles", rolesVal u.roles)])] := by
  cases hf : B.findOne (getProp req.body "email") w with
  | error e =>
    simp [login, loginBody, bind, Eff.andThen, pure, Eff.ret, callFindOne, hf] at h200
  | ok found =>
    cases found with
    | none =>
      simp [login, loginBody, bind, Eff.andThen, pure, Eff.ret, callFindOne, hf] at h200
    | some u =>
      cases hpw : B.compare (getProp req.body "password") u.passwordHash w with
      | error e =>
        simp [login, loginBody, bind, Eff.andThen, pure, Eff.ret, callFindOne, callCompare,
          hf, hpw] at h200
      | ok ok =>
        cases ok with
        | false =>
          simp [login, loginBody, bind, Eff.andThen, pure, Eff.ret, callFindOne, callCompare,
            hf, hpw] at h200
        | true =>
          cases hs : B.sign (JsVal.obj [("id", JsVal.str u._id), ("email", JsVal.str u.email),
              ("roles", rolesVal u.roles)]) B.jwtSecret "7d" w with
          | error e =>
            simp [login, loginBody, bind, Eff.andThen, pure, Eff.ret, callFindOne, callCompare,
              callSign, hf, hpw, hs] at h200
          | ok token =>
            cases ha : (B.createActivity ⟨u._id, "login", req.ip, req.userAgent⟩ w).1 with
            | error e =>
              simp [login, loginBody, bind, Eff.andThen, pure, Eff.ret, callFindOne,
                callCompare, callSign, callCreateActivity, hf, hpw, hs, ha] at h200
            | ok _ =>
              refine ⟨u, token, rfl, hpw, hs, ?_, ?_⟩ <;>
              simp [login, loginBody, bind, Eff.andThen, pure, Eff.ret, callFindOne,
                callCompare, callSign, callCreateActivity, hf, hpw, hs, ha]

/-- The world a `/register` run leaves is the initial one, the one after the user
creation, or the one after the activity write that follows it. -/
theorem register_world {σ : Type} (B : Backend σ) (req : Request) (w : σ) :
    (register B req w).world = w ∨
    ∃ h, (register B req w).world =
        (B.createUser (getProp req.body "email") h (getProp req.body "name") w).2 ∨
      ∃ u, (B.createUser (getProp req.body "email") h (getProp req.body "name") w).1
          = Except.ok u ∧
        (register B req w).world =
          (B.createActivity ⟨u._id, "register", req.ip, req.userAgent⟩
            (B.createUser (getProp req.body "email") h (getProp req.body "name") w).2).2 := by
  cases he : (getProp req.body "email").truthy with
  | false => left; simp [register, registerBody, pure, Eff.ret, he]
  | true =>
    cases hp : (getProp req.body "password").truthy with
    | false => left; simp [register, registerBody, pure, Eff.ret, he, hp]
    | true =>
      cases hf : B.findOne (getProp req.body "email") w with
      | error e =>
        left
        simp [register, registerBody, bind, Eff.andThen, pure, Eff.ret, callFindOne, he, hp, hf]
      | ok found =>
        cases found with
        | some x =>
          left
          simp [register, registerBody, bind, Eff.andThen, pure, Eff.ret, callFindOne, he, hp,
            hf]
        | none =>
          cases hh : B.hash (getProp req.body "password") 10 w with
          | error e =>
            left
            simp [register, registerBody, bind, Eff.andThen, pure, Eff.ret, callFindOne,
              callHash, he, hp, hf, hh]
          | ok h =>
            right
            refine ⟨h, ?_⟩
            cases hc : (B.createUser (getProp req.body "email") h
                (getProp req.body "name") w).1 with
            | error e =>
              left
              simp [register, registerBody, bind, Eff.andThen, pure, Eff.ret, callFindOne,
                callHash, callCreateUser, he, hp, hf, hh, hc]
            | ok u =>
              right
              refine ⟨u, rfl, ?_⟩
              cases ha : (B.createActivity ⟨u._id, "register", req.ip, req.userAgent⟩
                  (B.createUser (getProp req.body "email") h
                    (getProp req.body "name") w).2).1 with
              | error e =>
                simp [register, registerBody, bind, Eff.andThen, pure, Eff.ret, callFindOne,
                  callHash, callCreateUser, callCreateActivity, he, hp, hf, hh, hc, ha]
              | ok _ =>
                simp [register, registerBody, bind, Eff.andThen, pure, Eff.ret, callFindOne,
                  callHash, callCreateUser, callCreateActivity, he, hp, hf, hh, hc, ha]

/-- A `/register` run that answers 400, 401 or 409 leaves the world as it was. -/
theorem register_rejected_world {σ : Type} (B : Backend σ) (req : Request) (w : σ)
    (hs : (register B req w).response.status = 400 ∨ (register B req w).response.status = 401 ∨
      (register B req w).response.status = 409) :
    (register B req w).world = w := by
  cases he : (getProp req.body "email").truthy with
  | false => simp [register, registerBody, pure, Eff.ret, he]
  | true =>
    cases hp : (getProp req.body "password").truthy with
    | false => simp [register, registerBody, pure, Eff.ret, he, hp]
    | true =>
      cases hf : B.findOne (getProp req.body "email") w with
      | error e =>
        simp [register, registerBody, bind, Eff.andThen, pure, Eff.ret, callFindOne, he, hp, hf]
      | ok found =>
        cases found with
        | some x =>
          simp [register, registerBody, bind, Eff.andThen, pure, Eff.ret, callFindOne, he, hp,
            hf]
        | none =>
          cases hh : B.hash (getProp req.body "password") 10 w with
          | error e =>
            simp [register, registerBody, bind, Eff.andThen, pure, Eff.ret, callFindOne,
              callHash, he, hp, hf, hh]
          | ok h =>
            cases hc : (B.createUser (getProp req.body "email") h
                (getProp req.body "name") w).1 with
            | error e =>
              simp [register, registerBody, bind, Eff.andThen, pure, Eff.ret, callFindOne,
                callHash, callCreateUser, he, hp, hf, hh, hc] at hs
            | ok u =>
              cases ha : (B.createActivity ⟨u._id, "register", req.ip, req.userAgent⟩
                  (B.createUser (getProp req.body "email") h
                    (getProp req.body "name") w).2).1 with
              | error e =>
                simp [register, registerBody, bind, Eff.andThen, pure, Eff.ret, callFindOne,
                  callHash, callCreateUser, callCreateActivity, he, hp, hf, hh, hc, ha] at hs
              | ok _ =>
                simp [register, registerBody, bind, Eff.andThen, pure, Eff.ret, callFindOne,
                  callHash, callCreateUser, callCreateActivity, he, hp, hf, hh, hc, ha] at hs

/-- The world a `/login` run leaves is the initial one or the one after the activity
write for the user that was found. -/
theorem login_world {σ : Type} (B : Backend σ) (req : Request) (w : σ) :
    (login B req w).world = w ∨
    ∃ u, B.findOne (getProp req.body "email") w = Except.ok (some u) ∧
      (login B req w).world = (B.createActivity ⟨u._id, "login", req.ip, req.userAgent⟩ w).2 := by
  cases hf : B.findOne (getProp req.body "email") w with
  | error e =>
    left; simp [login, loginBody, bind, Eff.andThen, pure, Eff.ret, callFindOne, hf]
  | ok found =>
    cases found with
    | none =>
      left; simp [login, loginBody, bind, Eff.andThen, pure, Eff.ret, callFindOne, hf]
    | some u =>
      cases hpw : B.compare (getProp req.body "password") u.passwordHash w with
      | error e =>
        left
        simp [login, loginBody, bind, Eff.andThen, pure, Eff.ret, callFindOne, callCompare,
          hf, hpw]
      | ok ok =>
        cases ok with
        | false =>
          left
          simp [login, loginBody, bind, Eff.andThen, pure, Eff.ret, callFindOne, callCompare,
            hf, hpw]
        | true =>
          cases hs : B.sign (JsVal.obj [("id", JsVal.str u._id), ("email", JsVal.str u.email),
              ("roles", rolesVal u.roles)]) B.jwtSecret "7d" w with
          | error e =>
            left
            simp [login, loginBody, bind, Eff.andThen, pure, Eff.ret, callFindOne, callCompare,
              callSign, hf, hpw, hs]
          | ok token =>
            right
            refine ⟨u, rfl, ?_⟩
            cases ha : (B.createActivity ⟨u._id, "login", req.ip, req.userAgent⟩ w).1 with
            | error e =>
              simp [login, loginBody, bind, Eff.andThen, pure, Eff.ret, callFindOne,
                callCompare, callSign, callCreateActivity, hf, hpw, hs, ha]
            | ok _ =>
              simp [login, loginBody, bind, Eff.andThen, pure, Eff.ret, callFindOne,
                callCompare, callSign, callCreateActivity, hf, hpw, hs, ha]

/-- A `/login` run that answers 400, 401 or 409 leaves the world as it was. -/
theorem login_rejected_world {σ : Type} (B : Backend σ) (req : Request) (w : σ)
    (hst : (login B req w).response.status = 400 ∨ (login B req w).response.status = 401 ∨
      (login B req w).response.status = 409) :
    (login B req w).world = w := by
  cases hf : B.findOne (getProp req.body "email") w with
  | error e =>
    simp [login, loginBody, bind, Eff.andThen, pure, Eff.ret, callFindOne, hf]
  | ok found =>
    cases found with
    | none =>
      simp [login, loginBody, bind, Eff.andThen, pure, Eff.ret, callFindOne, hf]
    | some u =>
      cases hpw : B.compare (getProp req.body "password") u.passwordHash w with
      | error e =>
        simp [login, loginBody, bind, Eff.andThen, pure, Eff.ret, callFindOne, callCompare,
          hf, hpw]
      | ok ok =>
        cases ok with
        | false =>
          simp [login, loginBody, bind, Eff.andThen, pure, Eff.ret, callFindOne, callCompare,
            hf, hpw]
        | true =>
          cases hs : B.sign (JsVal.obj [("id", JsVal.str u._id), ("email", JsVal.str u.email),
              ("roles", rolesVal u.roles)]) B.jwtSecret "7d" w with
          | error e =>
            simp [login, loginBody, bind, Eff.andThen, pure, Eff.ret, callFindOne, callCompare,
              callSign, hf, hpw, hs]
          | ok token =>
            cases ha : (B.createActivity ⟨u._id, "login", req.ip, req.userAgent⟩ w).1 with
            | error e =>
              simp [login, loginBody, bind, Eff.andThen, pure, Eff.ret, callFindOne,
                callCompare, callSign, callCreateActivity, hf, hpw, hs, ha] at hst
            | ok _ =>
              simp [login, loginBody, bind, Eff.andThen, pure, Eff.ret, callFindOne,
                callCompare, callSign, callCreateActivity, hf, hpw, hs, ha] at hst

/-- A successful `User.create` on the in-memory store: the document holds the cast
email, the given hash and the default role, and is appended to the collection; the
activity log is untouched. -/
theorem memCreateUser_ok (M : Mongoose) (newId : ObjectId) (email : JsVal) (h : String)
    (name : JsVal) (db : Db) (u : User)
    (hc : (memCreateUser M newId email h name db).1 = Except.ok u) :
    castEmail M email = Except.ok u.email ∧ u.passwordHash = h ∧ u._id = newId ∧
      u.roles = ["user"] ∧
      (memCreateUser M newId email h name db).2 = ⟨db.users ++ [u], db.activity⟩ := by
  unfold memCreateUser at hc ⊢
  cases hk : castEmail M email with
  | error e => simp [hk] at hc
  | ok key =>
    cases hn : castName M name with
    | error e => simp [hk, hn] at hc
    | ok nm =>
      by_cases h1 : key = "" ∨ h = ""
      · simp [hk, hn, h1] at hc
      · by_cases h2 : (db.users.any (fun u => u.email == key)) = true
        · simp [hk, hn, h1, h2] at hc
        · simp only [hk, hn, h1, h2, if_false] at hc ⊢
          simp only [Bool.false_eq_true, if_false, Except.ok.injEq] at hc
          subst hc
          simp

/-- `User.create` on the in-memory store never touches the activity log. -/
theorem memCreateUser_activity (M : Mongoose) (newId : ObjectId) (email : JsVal) (h : String)
    (name : JsVal) (db : Db) :
    (memCreateUser M newId email h name db).2.activity = db.activity := by
  unfold memCreateUser
  cases castEmail M email with
  | error e => rfl
  | ok key =>
    cases castName M name with
    | error e => rfl
    | ok nm =>
      by_cases h1 : key = "" ∨ h = ""
      · simp [h1]
      · by_cases h2 : (db.users.any (fun u => u.email == key)) = true
        · simp [h1, h2]
        · simp [h1, h2]

/-- C4. A successful register on the in-memory store (both fields given, no user with
that email, the hashing and the user creation succeeding) answers 201 with a body of
exactly the two properties `id` and `email`, those of the user that was appended to
the collection.  That user holds as `passwordHash` the string `bcrypt.hash(password, 10)`
returned; the password itself is passed to `bcrypt.hash` and to nothing else. -/
theorem register_success (M : Mongoose) (A : Ambient) (db : Db) (req : Request)
    (h : String) (u : User)
    (he : (getProp req.body "email").truthy = true)
    (hp : (getProp req.body "password").truthy = true)
    (hf : memFindOne M (getProp req.body "email") db = Except.ok none)
    (hh : A.bcryptHash (getProp req.body "password") 10 = Except.ok h)
    (hc : (memCreateUser M A.newObjectId (getProp req.body "email") h
      (getProp req.body "name") db).1 = Except.ok u) :
    register (memBackend M A) req db =
      ⟨⟨201, JsVal.obj [("id", JsVal.str u._id), ("email", JsVal.str u.email)]⟩,
        ⟨db.users ++ [u], db.activity ++ [⟨u._id, "register", req.ip, req.userAgent⟩]⟩,
        [Call.findOne (getProp req.body "email"), Call.hash (getProp req.body "password") 10,
          Call.createUser (getProp req.body "email") h (getProp req.body "name"),
          Call.createActivity ⟨u._id, "register", req.ip, req.userAgent⟩],
        []⟩ ∧
    (register (memBackend M A) req db).response.body.keys = ["id", "email"] ∧
    u.passwordHash = h := by
  have hw := (memCreateUser_ok M A.newObjectId _ h _ db u hc).2.2.2.2
  have h1 : register (memBackend M A) req db =
      ⟨⟨201, JsVal.obj [("id", JsVal.str u._id), ("email", JsVal.str u.email)]⟩,
        ⟨db.users ++ [u], db.activity ++ [⟨u._id, "register", req.ip, req.userAgent⟩]⟩,
        [Call.findOne (getProp req.body "email"), Call.hash (getProp req.body "password") 10,
          Call.createUser (getProp req.body "email") h (getProp req.body "name"),
          Call.createActivity ⟨u._id, "register", req.ip, req.userAgent⟩],
        []⟩ := by
    simp [register, registerBody, bind, Eff.andThen, pure, Eff.ret, callFindOne, callHash,
      callCreateUser, callCreateActivity, memBackend, he, hp, hf, hh, hc, hw, memCreateActivity]
  refine ⟨h1, ?_, (memCreateUser_ok M A.newObjectId _ h _ db u hc).2.1⟩
  rw [h1]; rfl

/-- Witness of C4: registering `a@x.com` with `pw1` on the empty sample store. -/
theorem register_success_witness :
    (register (memBackend sampleMongoose sampleAmbient) (sampleRequest "a@x.com" "pw1")
        ⟨[], []⟩).response =
      ⟨201, JsVal.obj [("id", JsVal.str "65a1"), ("email", JsVal.str "a@x.com")]⟩ ∧
    sampleUser.passwordHash = "$2a$10$pw1" :=
  ⟨congrArg Run.response (register_success sampleMongoose sampleAmbient ⟨[], []⟩
      (sampleRequest "a@x.com" "pw1") "$2a$10$pw1" sampleUser rfl rfl rfl rfl rfl).1,
    (register_success sampleMongoose sampleAmbient ⟨[], []⟩
      (sampleRequest "a@x.com" "pw1") "$2a$10$pw1" sampleUser rfl rfl rfl rfl rfl).2.2⟩

/-- C2 as stated fails for an empty second password: after `a@x.com` was registered
with `pw1` (201), registering `a@x.com` with the empty password answers 400, the
missing-field check coming before the lookup. -/
theorem register_twice_empty_password :
    (register (memBackend sampleMongoose sampleAmbient) (sampleRequest "a@x.com" "pw1")
        ⟨[], []⟩).response.status = 201 ∧
    (register (memBackend sampleMongoose sampleAmbient) (sampleRequest "a@x.com" "")
        (register (memBackend sampleMongoose sampleAmbient) (sampleRequest "a@x.com" "pw1")
          ⟨[], []⟩).world).response.status = 400 ∧
    ¬ ((register (memBackend sampleMongoose sampleAmbient) (sampleRequest "a@x.com" "pw1")
        ⟨[], []⟩).response.status = 201 →
      (register (memBackend sampleMongoose sampleAmbient) (sampleRequest "a@x.com" "")
        (register (memBackend sampleMongoose sampleAmbient) (sampleRequest "a@x.com" "pw1")
          ⟨[], []⟩).world).response.status = 409) := by
  refine ⟨rfl, rfl, ?_⟩
  intro hcl
  have h409 := hcl rfl
  have h400 : (register (memBackend sampleMongoose sampleAmbient) (sampleRequest "a@x.com" "")
        (register (memBackend sampleMongoose sampleAmbient) (sampleRequest "a@x.com" "pw1")
          ⟨[], []⟩).world).response.status = 400 := rfl
  rw [h400] at h409
  exact absurd h409 (by decide)

/-- C2, amended. On the in-memory store, when a register for an email answered 201, a
register that follows it at once for the same email, with a password that is given
(truthy), answers 409 with the body `error: 'Email already in use'`; its only call is
the lookup, and it leaves the user collection and the activity log exactly as the
first call left them. -/
theorem register_twice_conflict (M : Mongoose) (A1 A2 : Ambient) (db : Db)
    (req1 req2 : Request)
    (hsame : getProp req2.body "email" = getProp req1.body "email")
    (hp2 : (getProp req2.body "password").truthy = true)
    (h201 : (register (memBackend M A1) req1 db).response.status = 201) :
    register (memBackend M A2) req2 (register (memBackend M A1) req1 db).world =
      ⟨⟨409, JsVal.obj [("error", JsVal.str "Email already in use")]⟩,
        (register (memBackend M A1) req1 db).world,
        [Call.findOne (getProp req2.body "email")], []⟩ := by
  obtain ⟨h, u, he, _, hf, _, hc, hrun⟩ := register_created (memBackend M A1) req1 db h201
  have hc1 : (memCreateUser M A1.newObjectId (getProp req1.body "email") h
      (getProp req1.body "name") db).1 = Except.ok u := hc
  obtain ⟨hkey, _, _, _, hdb⟩ := memCreateUser_ok M A1.newObjectId _ h _ db u hc1
  have hworld : (register (memBackend M A1) req1 db).world =
      ⟨db.users ++ [u], db.activity ++ [⟨u._id, "register", req1.ip, req1.userAgent⟩]⟩ := by
    rw [hrun]
    show (memCreateActivity _ (memCreateUser M A1.newObjectId (getProp req1.body "email") h
      (getProp req1.body "name") db).2).2 = _
    rw [hdb]; rfl
  have hnone : db.users.find? (fun x => x.email == u.email) = none := by
    have hf1 : memFindOne M (getProp req1.body "email") db = Except.ok none := hf
    simpa [memFindOne, hkey] using hf1
  have hfind : memFindOne M (getProp req1.body "email")
      ⟨db.users ++ [u], db.activity ++ [⟨u._id, "register", req1.ip, req1.userAgent⟩]⟩ =
      Except.ok (some u) := by
    simp [memFindOne, hkey, List.find?_append, hnone]
  rw [hworld]
  simp [register, registerBody, bind, Eff.andThen, pure, Eff.ret, callFindOne, memBackend,
    hsame, he, hp2, hfind, errorBody]

/-- Witness of C2, amended: `a@x.com` registered with `pw1`, then again with `pw2`. -/
theorem register_twice_conflict_witness :
    (register (memBackend sampleMongoose sampleAmbient) (sampleRequest "a@x.com" "pw2")
      (register (memBackend sampleMongoose sampleAmbient) (sampleRequest "a@x.com" "pw1")
        ⟨[], []⟩).world).response =
      ⟨409, JsVal.obj [("error", JsVal.str "Email already in use")]⟩ :=
  congrArg Run.response (register_twice_conflict sampleMongoose sampleAmbient sampleAmbient
    ⟨[], []⟩ (sampleRequest "a@x.com" "pw1") (sampleRequest "a@x.com" "pw2") rfl rfl rfl)

/-- C6. On the in-memory store: a register that answers 201 appends exactly one
activity entry, with action `register` and the id of the user it created (the one in
the response body); a login that answers 200 appends exactly one entry, with action
`login` and the id of the user the lookup found; a register or login that answers
400, 401 or 409 appends nothing; and in every run the entries present before are
still there, unchanged and in place, as the front of the log. -/
theorem activity_entries (M : Mongoose) (A : Ambient) (db : Db) (req : Request) :
    ((register (memBackend M A) req db).response.status = 201 →
      ∃ u, (register (memBackend M A) req db).world.users = db.users ++ [u] ∧
        (register (memBackend M A) req db).response.body =
          JsVal.obj [("id", JsVal.str u._id), ("email", JsVal.str u.email)] ∧
        (register (memBackend M A) req db).world.activity =
          db.activity ++ [⟨u._id, "register", req.ip, req.userAgent⟩]) ∧
    ((login (memBackend M A) req db).response.status = 200 →
      ∃ u, memFindOne M (getProp req.body "email") db = Except.ok (some u) ∧
        (login (memBackend M A) req db).world.users = db.users ∧
        (login (memBackend M A) req db).world.activity =
          db.activity ++ [⟨u._id, "login", req.ip, req.userAgent⟩]) ∧
    (((register (memBackend M A) req db).response.status = 400 ∨
        (register (memBackend M A) req db).response.status = 401 ∨
        (register (memBackend M A) req db).response.status = 409) →
      (register (memBackend M A) req db).world.activity = db.activity) ∧
    (((login (memBackend M A) req db).response.status = 400 ∨
        (login (memBackend M A) req db).response.status = 401 ∨
        (login (memBackend M A) req db).response.status = 409) →
      (login (memBackend M A) req db).world.activity = db.activity) ∧
    db.activity <+: (register (memBackend M A) req db).world.activity ∧
    db.activity <+: (login (memBackend M A) req db).world.activity := by
  refine ⟨?_, ?_, ?_, ?_, ?_, ?_⟩
  · intro h201
    obtain ⟨h, u, _, _, _, _, hc, hrun⟩ := register_created (memBackend M A) req db h201
    have hc1 : (memCreateUser M A.newObjectId (getProp req.body "email") h
        (getProp req.body "name") db).1 = Except.ok u := hc
    have hdb := (memCreateUser_ok M A.newObjectId _ h _ db u hc1).2.2.2.2
    have hworld : (register (memBackend M A) req db).world =
        ⟨db.users ++ [u], db.activity ++ [⟨u._id, "register", req.ip, req.userAgent⟩]⟩ := by
      rw [hrun]
      show (memCreateActivity _ (memCreateUser M A.newObjectId (getProp req.body "email") h
        (getProp req.body "name") db).2).2 = _
      rw [hdb]; rfl
    refine ⟨u, ?_, ?_, ?_⟩
    · rw [hworld]
    · rw [hrun]
    · rw [hworld]
  · intro h200
    obtain ⟨u, token, hf, _, _, hw, _⟩ := login_accepted (memBackend M A) req db h200
    refine ⟨u, hf, ?_, ?_⟩
    · rw [hw]; rfl
    · rw [hw]; rfl
  · intro hs
    rw [register_rejected_world (memBackend M A) req db hs]
  · intro hs
    rw [login_rejected_world (memBackend M A) req db hs]
  · rcases register_world (memBackend M A) req db with hw | ⟨h, hw | ⟨u, _, hw⟩⟩
    · rw [hw]
    · rw [hw]
      show db.activity <+: (memCreateUser M A.newObjectId (getProp req.body "email") h
        (getProp req.body "name") db).2.activity
      rw [memCreateUser_activity]
    · rw [hw]
      show db.activity <+: (memCreateUser M A.newObjectId (getProp req.body "email") h
        (getProp req.body "name") db).2.activity ++ [_]
      rw [memCreateUser_activity]
      exact List.prefix_append _ _
  · rcases login_world (memBackend M A) req db with hw | ⟨u, _, hw⟩
    · rw [hw]
    · rw [hw]
      exact List.prefix_append _ _

/-- Witness of C6: the login of `a@x.com` with `pw1` on the sample store leaves the one
entry for the user `65a1`. -/
theorem activity_entries_witness :
    ∃ u, memFindOne sampleMongoose (JsVal.str "a@x.com") sampleDb = Except.ok (some u) ∧
      (login (memBackend sampleMongoose sampleAmbient) (sampleRequest "a@x.com" "pw1")
        sampleDb).world.users = sampleDb.users ∧
      (login (memBackend sampleMongoose sampleAmbient) (sampleRequest "a@x.com" "pw1")
        sampleDb).world.activity =
        sampleDb.activity ++ [⟨u._id, "login", JsVal.str "::1", JsVal.undefined⟩] :=
  (activity_entries sampleMongoose sampleAmbient sampleDb
    (sampleRequest "a@x.com" "pw1")).2.1 rfl

/-! ## Properties of the browser form -/

/-- The `try` block of `handleAuthAction` ends with exactly one message set. -/
theorem authTry_messages (c c1 : Client) (h : authTry c = Except.ok c1) :
    (c1.ui.error ≠ "" ∧ c1.ui.success = "") ∨ (c1.ui.error = "" ∧ c1.ui.success ≠ "") := by
  unfold authTry at h
  split at h
  · simp at h
  · split at h
    · split at h
      · simp at h
      · split at h
        · simp only [Except.ok.injEq] at h; subst h; right; simp
        · simp only [Except.ok.injEq] at h; subst h; left; simp
    · split at h
      · simp at h
      · split at h
        · simp only [Except.ok.injEq] at h; subst h; left; simp
        · simp only [Except.ok.injEq] at h; subst h; right; simp

/-- C8. After one submit exactly one of the two messages `error` and `success` is
non-empty, whatever the view, the fields, the messages shown before and the stored
item (nothing stored, malformed text, any JSON value); and the page after the submit
does not depend on the messages shown before, which are cleared. -/
theorem submit_one_message (c : Client) :
    (((handleAuthAction c).ui.error ≠ "" ∧ (handleAuthAction c).ui.success = "") ∨
      ((handleAuthAction c).ui.error = "" ∧ (handleAuthAction c).ui.success ≠ "")) ∧
    ∀ e s : String,
      handleAuthAction { c with ui := { c.ui with error := e, success := s } } =
        handleAuthAction c := by
  constructor
  · unfold handleAuthAction
    split
    · left; simp
    · cases h : authTry c with
      | error e => left; simp
      | ok c1 => exact authTry_messages c c1 h
  · intro e s
    unfold handleAuthAction authTry
    simp only

/-- Witnesses of C8: a page showing a stale success message over a malformed stored
text ends with the generic error only; a registration on an empty store ends with
the success message only. -/
theorem submit_one_message_witness :
    (handleAuthAction ⟨⟨true, "a", "b", "", "Login successful!"⟩, Item.invalid "[oops",
        [], 0, []⟩).ui.error = "An error occurred. Please try again." ∧
    (handleAuthAction ⟨⟨true, "a", "b", "", "Login successful!"⟩, Item.invalid "[oops",
        [], 0, []⟩).ui.success = "" ∧
    (((handleAuthAction (samplePage false "a" "b" Item.missing)).ui.error ≠ "" ∧
        (handleAuthAction (samplePage false "a" "b" Item.missing)).ui.success = "") ∨
      ((handleAuthAction (samplePage false "a" "b" Item.missing)).ui.error = "" ∧
        (handleAuthAction (samplePage false "a" "b" Item.missing)).ui.success ≠ "")) :=
  ⟨rfl, rfl, (submit_one_message (samplePage false "a" "b" Item.missing)).1⟩

/-- `v === s` holds exactly when `v` is the string `s`. -/
theorem strictEqStr_iff (v : Option JsonVal) (s : String) :
    strictEqStr v s = true ↔ v = some (JsonVal.str s) := by
  cases v with
  | none => simp [strictEqStr]
  | some w => cases w <;> simp [strictEqStr]

/-- On an entry that is not `null`, the callback of `some` compares the entry's
username. -/
theorem nameMatch_of_not_null (u : String) (e : JsonVal) (h : e ≠ JsonVal.null) :
    nameMatch u e = Except.ok (strictEqStr (entryUsername e) u) := by
  cases e <;> simp_all [nameMatch, propOf, entryUsername]

/-- A callback answer `false` of `some` means the entry's username differs. -/
theorem nameMatch_false (u : String) (e : JsonVal) (h : nameMatch u e = Except.ok false) :
    entryUsername e ≠ some (JsonVal.str u) := by
  intro heq
  have hs := (strictEqStr_iff (entryUsername e) u).mpr heq
  cases e <;> simp_all [nameMatch, propOf, entryUsername]

/-- A callback answer `false` of `some` means the entry is not `null`. -/
theorem nameMatch_false_not_null (u : String) (e : JsonVal)
    (h : nameMatch u e = Except.ok false) : e ≠ JsonVal.null := by
  intro heq
  subst heq
  simp [nameMatch, propOf] at h

/-- When `some` answers `false`, the callback answered `false` on every element. -/
theorem someItems_false (pred : JsonVal → Except Exn Bool) (items : List JsonVal)
    (h : someItems pred items = Except.ok false) : ∀ e ∈ items, pred e = Except.ok false := by
  induction items with
  | nil => simp
  | cons a rest ih =>
    unfold someItems at h
    cases ha : pred a with
    | error x => simp [ha] at h
    | ok b =>
      cases b with
      | true => simp [ha] at h
      | false =>
        simp only [ha] at h
        intro e he
        rcases List.mem_cons.mp he with rfl | hr
        · exact ha
        · exact ih h e hr

/-- Over entries none of which is `null`, `some` with the username callback answers
whether an entry has that username. -/
theorem someItems_nameMatch (u : String) (items : List JsonVal)
    (hnn : ∀ e ∈ items, e ≠ JsonVal.null) :
    someItems (nameMatch u) items =
      Except.ok (items.any (fun e => strictEqStr (entryUsername e) u)) := by
  induction items with
  | nil => rfl
  | cons a rest ih =>
    have ha := nameMatch_of_not_null u a (hnn a (List.mem_cons_self _ _))
    have ih1 := ih (fun e he => hnn e (List.mem_cons_of_mem _ he))
    unfold someItems
    rw [ha]
    cases hb : strictEqStr (entryUsername a) u with
    | true => simp [hb]
    | false => simp [hb, ih1]

/-- The text `JSON.parse` sees is an array exactly when there is a stored list. -/
theorem parseUsers_of_storedItems (i : Item) (items : List JsonVal)
    (h : storedItems i = some items) : parseUsers i = Except.ok (JsonVal.arr items) := by
  cases i with
  | missing => simp [storedItems] at h; subst h; rfl
  | invalid raw => simp [storedItems] at h
  | json v =>
    cases v <;> simp [storedItems] at h
    subst h; rfl

/-- A stored text that parses to an array is a stored list. -/
theorem storedItems_of_parseUsers (i : Item) (items : List JsonVal)
    (h : parseUsers i = Except.ok (JsonVal.arr items)) : storedItems i = some items := by
  cases i with
  | missing => simp [parseUsers] at h; subst h; rfl
  | invalid raw => simp [parseUsers] at h
  | json v => simp [parseUsers] at h; subst h; rfl

/-- Writing back an array writes back its elements. -/
theorem reparseItems_eq_map (l : List JsonVal) : reparseItems l = l.map JsonVal.reparse := by
  induction l with
  | nil => rfl
  | cons a rest ih => simp [reparseItems, ih]

/-- Writing back an array, in terms of its elements. -/
theorem reparse_arr (l : List JsonVal) :
    (JsonVal.arr l).reparse = JsonVal.arr (l.map JsonVal.reparse) := by
  simp [JsonVal.reparse, reparseItems_eq_map]

/-- An entry `username, password` is written back unchanged. -/
theorem reparse_newEntry (u p : String) : (newEntry u p).reparse = newEntry u p := rfl

/-- What is written back for a number is written back unchanged from then on. -/
theorem reparseNum_idem (d : Double) : (reparseNum d).reparse = reparseNum d := by
  by_cases h1 : d.isFinite = true
  · by_cases h2 : d.isZero = true
    · have h : reparseNum d = JsonVal.num ⟨false, 0, 0⟩ := by
        unfold reparseNum; rw [if_pos h1, if_pos h2]
      rw [h]; rfl
    · have h : reparseNum d = JsonVal.num d := by
        unfold reparseNum; rw [if_pos h1, if_neg h2]
      rw [h]; simp only [JsonVal.reparse]; exact h
  · have h : reparseNum d = JsonVal.null := by
      unfold reparseNum; rw [if_neg h1]
    rw [h]; rfl

mutual
/-- What is written back is written back unchanged from then on. -/
theorem reparse_idem : ∀ v : JsonVal, v.reparse.reparse = v.reparse
  | .null => by simp [JsonVal.reparse]
  | .bool b => by simp [JsonVal.reparse]
  | .num d => by simp only [JsonVal.reparse]; exact reparseNum_idem d
  | .str s => by simp [JsonVal.reparse]
  | .arr items => by simp only [JsonVal.reparse]; rw [reparseItems_idem items]
  | .obj props => by simp only [JsonVal.reparse]; rw [reparseProps_idem props]
/-- The same for the elements of an array. -/
theorem reparseItems_idem : ∀ l : List JsonVal, reparseItems (reparseItems l) = reparseItems l
  | [] => by simp [reparseItems]
  | v :: rest => by simp only [reparseItems]; rw [reparse_idem v, reparseItems_idem rest]
/-- The same for the properties of an object. -/
theorem reparseProps_idem :
    ∀ l : List (String × JsonVal), reparseProps (reparseProps l) = reparseProps l
  | [] => by simp [reparseProps]
  | (k, v) :: rest => by simp only [reparseProps]; rw [reparse_idem v, reparseProps_idem rest]
end

/-- Only the string `s` is written back as the string `s`. -/
theorem reparse_eq_str (v : JsonVal) (s : String) (h : v.reparse = JsonVal.str s) :
    v = JsonVal.str s := by
  cases v with
  | null => simp [JsonVal.reparse] at h
  | bool b => simp [JsonVal.reparse] at h
  | num d =>
    simp only [JsonVal.reparse, reparseNum] at h
    split at h
    · split at h <;> simp at h
    · simp at h
  | str t => simpa [JsonVal.reparse] using h
  | arr items => simp [JsonVal.reparse] at h
  | obj props => simp [JsonVal.reparse] at h

/-- A property read on a written-back object gives the written-back property. -/
theorem lookup_reparseProps (props : List (String × JsonVal)) (key : String) :
    (reparseProps props).lookup key = (props.lookup key).map JsonVal.reparse := by
  induction props with
  | nil => rfl
  | cons a rest ih =>
    obtain ⟨k, v⟩ := a
    simp only [reparseProps, List.lookup]
    cases key == k <;> simp [ih]

/-- The username of a written-back entry is the written-back username. -/
theorem entryUsername_reparse (e : JsonVal) :
    entryUsername e.reparse = (entryUsername e).map JsonVal.reparse := by
  cases e with
  | null => rfl
  | bool b => rfl
  | num d =>
    simp only [JsonVal.reparse, reparseNum]
    by_cases h1 : d.isFinite = true
    · by_cases h2 : d.isZero = true
      · rw [if_pos h1, if_pos h2]; rfl
      · rw [if_pos h1, if_neg h2]; rfl
    · rw [if_neg h1]; rfl
  | str t => rfl
  | arr items => rfl
  | obj props => simp [JsonVal.reparse, entryUsername, lookup_reparseProps]

/-- Writing back does not turn another username into the string `u`. -/
theorem entryUsername_reparse_ne (e : JsonVal) (u : String)
    (h : entryUsername e ≠ some (JsonVal.str u)) :
    entryUsername e.reparse ≠ some (JsonVal.str u) := by
  rw [entryUsername_reparse]
  intro heq
  cases hx : entryUsername e with
  | none => simp [hx] at heq
  | some v =>
    rw [hx] at heq h
    simp only [Option.map_some', Option.some.injEq] at heq
    exact h (by rw [reparse_eq_str v u heq])


/-- C9 as stated fails on two stored arrays.  Over `[null]`, in the Register view with
the fields `a` and `b`, no entry has the username `a`, yet nothing is appended and the
view stays Register: reading `username` of `null` throws and the submit ends in the
generic error.  Over `[1e400]`, which parses to `[Infinity]`, the entry is appended
but the list is written back as `[null, entry]`, not as the old list with the entry
at the end. -/
theorem register_submit_null_entry :
    ((handleAuthAction (samplePage false "a" "b" (Item.json (JsonVal.arr [JsonVal.null])))).ui.error =
        "An error occurred. Please try again." ∧
      storedItems (handleAuthAction
        (samplePage false "a" "b" (Item.json (JsonVal.arr [JsonVal.null])))).stored =
        some [JsonVal.null] ∧
      ¬ RegisterSubmitSpec [JsonVal.null]
        (samplePage false "a" "b" (Item.json (JsonVal.arr [JsonVal.null])))) ∧
    (storedItems (handleAuthAction
        (samplePage false "a" "b" (Item.json (JsonVal.arr [JsonVal.num infinity])))).stored =
        some [JsonVal.null, newEntry "a" "b"] ∧
      ¬ RegisterSubmitSpec [JsonVal.num infinity]
        (samplePage false "a" "b" (Item.json (JsonVal.arr [JsonVal.num infinity])))) := by
  refine ⟨⟨rfl, rfl, ?_⟩, rfl, ?_⟩
  · intro hspec
    have h3 := hspec.2.2 (by simp [samplePage]) (by simp [entryUsername, samplePage])
    have hv : (handleAuthAction
        (samplePage false "a" "b" (Item.json (JsonVal.arr [JsonVal.null])))).ui.isLoginView
        = false := rfl
    rw [hv] at h3
    exact absurd h3.2.1 (by decide)
  · intro hspec
    have h3 := (hspec.2.2 (by simp [samplePage]) (by simp [entryUsername, samplePage])).1
    have hs : storedItems (handleAuthAction
        (samplePage false "a" "b" (Item.json (JsonVal.arr [JsonVal.num infinity])))).stored =
        some [JsonVal.null, newEntry "a" "b"] := rfl
    rw [hs] at h3
    simp at h3

/-- C9, amended. In the Register view, over a stored list that is an array none of
whose entries is `null` and that `JSON.stringify` writes back unchanged, a submit does
what the specification says: with an empty field the error is `Username and password
are required.` and the stored list, the view and the fields are unchanged; otherwise,
with a stored entry of the same username, the error is `Username already exists.` and
they are unchanged; otherwise the stored list is the old one with the entry
`username, password` appended at the end, the view is Login and both fields are
empty. -/
theorem register_submit (c : Client) (items : List JsonVal)
    (hview : c.ui.isLoginView = false) (hst : storedItems c.stored = some items)
    (hnn : ∀ e ∈ items, e ≠ JsonVal.null)
    (hstable : reparseItems items = items) : RegisterSubmitSpec items c := by
  have hp := parseUsers_of_storedItems c.stored items hst
  have hs := someItems_nameMatch c.ui.username items hnn
  refine ⟨?_, ?_, ?_⟩
  · intro hf
    simp [handleAuthAction, hf]
  · intro hf hex
    have hany : items.any (fun e => strictEqStr (entryUsername e) c.ui.username) = true := by
      obtain ⟨e, he, heq⟩ := hex
      exact List.any_eq_true.mpr ⟨e, he, (strictEqStr_iff _ _).mpr heq⟩
    simp [handleAuthAction, hf, authTry, hp, hview, usersSome, hs, hany]
  · intro hf hnex
    have hany : items.any (fun e => strictEqStr (entryUsername e) c.ui.username) = false := by
      rw [Bool.eq_false_iff]
      intro h
      obtain ⟨e, he, h2⟩ := List.any_eq_true.mp h
      exact hnex ⟨e, he, (strictEqStr_iff _ _).mp h2⟩
    have hmap : items.map JsonVal.reparse = items := by
      rw [← reparseItems_eq_map]; exact hstable
    simp [handleAuthAction, hf, authTry, hp, hview, usersSome, hs, hany, spread, storedItems,
      setUsers, reparse_arr, hmap, reparse_newEntry]

/-- Witness of C9, amended: registering `b` over the stored list holding `a`. -/
theorem register_submit_witness :
    RegisterSubmitSpec [newEntry "a" "pw"]
      (samplePage false "b" "pw2" (Item.json (JsonVal.arr [newEntry "a" "pw"]))) :=
  register_submit (samplePage false "b" "pw2" (Item.json (JsonVal.arr [newEntry "a" "pw"])))
    [newEntry "a" "pw"] rfl rfl (by simp [newEntry]) rfl

/-- A submit leaves the stored item alone, or it is a registration: the stored text
was an array, no entry had the username, and the list with the new entry was written. -/
theorem handleAuthAction_stored (c : Client) :
    (handleAuthAction c).stored = c.stored ∨
    ∃ items, c.ui.isLoginView = false ∧ c.ui.username ≠ "" ∧ c.ui.password ≠ "" ∧
      parseUsers c.stored = Except.ok (JsonVal.arr items) ∧
      someItems (nameMatch c.ui.username) items = Except.ok false ∧
      handleAuthAction c =
        { c with
          stored := setUsers (JsonVal.arr (items ++ [newEntry c.ui.username c.ui.password]))
          ui := ⟨true, "", "", "", "Registration successful! Please log in."⟩ } := by
  by_cases hf : c.ui.username = "" ∨ c.ui.password = ""
  · left; simp [handleAuthAction, hf]
  · have hu : c.ui.username ≠ "" := fun h => hf (Or.inl h)
    have hpw : c.ui.password ≠ "" := fun h => hf (Or.inr h)
    cases hp : parseUsers c.stored with
    | error e => left; simp [handleAuthAction, hf, authTry, hp]
    | ok users =>
      cases hv : c.ui.isLoginView with
      | true =>
        left
        cases hfind : usersFind users (loginMatch c.ui.username c.ui.password) with
        | error e => simp [handleAuthAction, hf, authTry, hp, hv, hfind]
        | ok user =>
          cases ht : truthyOpt user <;> simp [handleAuthAction, hf, authTry, hp, hv, hfind, ht]
      | false =>
        cases users with
        | arr items =>
          cases hs : someItems (nameMatch c.ui.username) items with
          | error e => left; simp [handleAuthAction, hf, authTry, hp, hv, usersSome, hs]
          | ok b =>
            cases b with
            | true => left; simp [handleAuthAction, hf, authTry, hp, hv, usersSome, hs]
            | false =>
              right
              refine ⟨items, rfl, hu, hpw, rfl, hs, ?_⟩
              simp [handleAuthAction, hf, authTry, hp, hv, usersSome, hs, spread]
        | null => left; simp [handleAuthAction, hf, authTry, hp, hv, usersSome]
        | bool b => left; simp [handleAuthAction, hf, authTry, hp, hv, usersSome]
        | num n => left; simp [handleAuthAction, hf, authTry, hp, hv, usersSome]
        | str t => left; simp [handleAuthAction, hf, authTry, hp, hv, usersSome]
        | obj props => left; simp [handleAuthAction, hf, authTry, hp, hv, usersSome]

/-- The written-back form of a stored list is the list of the written-back entries. -/
theorem storedItems_rewritten (i : Item) (items : List JsonVal)
    (h : storedItems i = some items) :
    storedItems (rewritten i) = some (reparseItems items) := by
  cases i with
  | missing => simp [storedItems] at h; subst h; rfl
  | invalid raw => simp [storedItems] at h
  | json v =>
    cases v <;> simp [storedItems] at h
    subst h; rfl

/-- A submit keeps the stored usernames pairwise distinct, as they are and as they are
written back. -/
theorem handleAuthAction_nodup (c : Client) (h1 : (storedUsernames c.stored).Nodup)
    (h2 : (storedUsernames (rewritten c.stored)).Nodup) :
    (storedUsernames (handleAuthAction c).stored).Nodup ∧
    (storedUsernames (rewritten (handleAuthAction c).stored)).Nodup := by
  rcases handleAuthAction_stored c with hs | ⟨items, _, _, _, hp, hsome, hrun⟩
  · rw [hs]; exact ⟨h1, h2⟩
  · have hst := storedItems_of_parseUsers c.stored items hp
    have hne : ∀ e ∈ items, entryUsername e.reparse ≠ some (JsonVal.str c.ui.username) :=
      fun e he => entryUsername_reparse_ne e _
        (nameMatch_false _ e (someItems_false _ items hsome e he))
    have h2a : (List.map entryUsername (List.map JsonVal.reparse items)).Nodup := by
      have := h2
      simp only [storedUsernames, storedItems_rewritten c.stored items hst,
        Option.getD_some, reparseItems_eq_map] at this
      exact this
    have hgoal : (List.map entryUsername (List.map JsonVal.reparse items) ++
        [some (JsonVal.str c.ui.username)]).Nodup := by
      rw [List.nodup_append]
      refine ⟨h2a, List.nodup_singleton _, ?_⟩
      intro a ha hb
      rw [List.mem_singleton] at hb
      subst hb
      obtain ⟨e', he', heq⟩ := List.mem_map.mp ha
      obtain ⟨e, he, rfl⟩ := List.mem_map.mp he'
      exact hne e he heq
    have hstored : (handleAuthAction c).stored =
        Item.json (JsonVal.arr (List.map JsonVal.reparse items ++
          [newEntry c.ui.username c.ui.password])) := by
      rw [hrun]
      simp [setUsers, reparse_arr, reparse_newEntry]
    have hre : rewritten (handleAuthAction c).stored = (handleAuthAction c).stored := by
      rw [hstored]
      simp only [rewritten, reparse_arr, List.map_append,
        List.map_map, List.map_cons, List.map_nil, reparse_newEntry]
      have : JsonVal.reparse ∘ JsonVal.reparse = JsonVal.reparse := by
        funext v; exact reparse_idem v
      rw [this]
    have hu : storedUsernames (handleAuthAction c).stored =
        List.map entryUsername (List.map JsonVal.reparse items) ++
          [some (JsonVal.str c.ui.username)] := by
      rw [hstored]
      simp [storedUsernames, storedItems, newEntry, entryUsername]
    rw [hre, hu]
    exact ⟨hgoal, hgoal⟩

/-- Every event keeps the stored usernames pairwise distinct. -/
theorem step_nodup (c : Client) (ev : Event) (h1 : (storedUsernames c.stored).Nodup)
    (h2 : (storedUsernames (rewritten c.stored)).Nodup) :
    (storedUsernames (c.step ev).stored).Nodup ∧
    (storedUsernames (rewritten (c.step ev).stored)).Nodup := by
  cases ev with
  | typeUsername v => exact ⟨h1, h2⟩
  | typePassword v => exact ⟨h1, h2⟩
  | toggleView => exact ⟨h1, h2⟩
  | submit => exact handleAuthAction_nodup c h1 h2
  | googleLogin => exact ⟨h1, h2⟩

/-- Every sequence of events keeps the stored usernames pairwise distinct. -/
theorem run_nodup (events : List Event) (c : Client) (h1 : (storedUsernames c.stored).Nodup)
    (h2 : (storedUsernames (rewritten c.stored)).Nodup) :
    (storedUsernames (c.run events).stored).Nodup ∧
    (storedUsernames (rewritten (c.run events).stored)).Nodup := by
  induction events generalizing c with
  | nil => exact ⟨h1, h2⟩
  | cons ev rest ih =>
    exact ih (c.step ev) (step_nodup c ev h1 h2).1 (step_nodup c ev h1 h2).2

/-- On an entry that is not `null` and has another username, the login callback
answers `false`. -/
theorem loginMatch_other (u q : String) (e : JsonVal) (hn : e ≠ JsonVal.null)
    (hu : entryUsername e ≠ some (JsonVal.str u)) : loginMatch u q e = Except.ok false := by
  have hs : strictEqStr (entryUsername e) u = false := by
    rw [Bool.eq_false_iff]
    exact fun h => hu ((strictEqStr_iff _ _).mp h)
  cases e <;> simp_all [loginMatch, propOf, entryUsername, strictEqStr]

/-- `find` with the login callback over entries with other usernames, followed by
the entry for the username: the entry when the password is the same, `undefined`
otherwise. -/
theorem findItems_appended (u p q : String) (l : List JsonVal)
    (h : ∀ e ∈ l, loginMatch u q e = Except.ok false) :
    findItems (loginMatch u q) (l ++ [newEntry u p]) =
      Except.ok (if p = q then some (newEntry u p) else none) := by
  induction l with
  | nil =>
    by_cases hpq : p = q
    · simp [findItems, loginMatch, propOf, newEntry, strictEqStr, List.lookup, hpq]
    · have hb : (p == q) = false := by simp [hpq]
      simp [findItems, loginMatch, propOf, newEntry, strictEqStr, List.lookup, hpq, hb]
  | cons a rest ih =>
    have ha := h a (List.mem_cons_self _ _)
    have ih1 := ih (fun e he => h e (List.mem_cons_of_mem _ he))
    simp only [List.cons_append, findItems, ha]
    exact ih1

/-- A Register-view submit that ends with a success message was a registration: the
fields were non-empty, the stored text was an array, no entry had the username, and
the list with the new entry was written. -/
theorem register_succeeded (c : Client) (hv : c.ui.isLoginView = false)
    (hsucc : (handleAuthAction c).ui.success ≠ "") :
    ∃ items, c.ui.username ≠ "" ∧ c.ui.password ≠ "" ∧
      someItems (nameMatch c.ui.username) items = Except.ok false ∧
      (handleAuthAction c).stored =
        Item.json (JsonVal.arr (items.map JsonVal.reparse ++
          [newEntry c.ui.username c.ui.password])) := by
  rcases handleAuthAction_stored c with hs | ⟨items, _, hu, hpw, _, hsome, hrun⟩
  · exfalso
    apply hsucc
    by_cases hf : c.ui.username = "" ∨ c.ui.password = ""
    · simp [handleAuthAction, hf]
    · cases hp : parseUsers c.stored with
      | error e => simp [handleAuthAction, hf, authTry, hp]
      | ok users =>
        cases husers : usersSome users (nameMatch c.ui.username) with
        | error e => simp [handleAuthAction, hf, authTry, hp, hv, husers]
        | ok b =>
          cases b with
          | true => simp [handleAuthAction, hf, authTry, hp, hv, husers]
          | false =>
            have hst : (handleAuthAction c).stored =
                setUsers (JsonVal.arr (spread users ++
                  [newEntry c.ui.username c.ui.password])) := by
              simp [handleAuthAction, hf, authTry, hp, hv, husers]
            rw [hst] at hs
            cases hc : c.stored with
            | missing => rw [hc] at hs; simp [setUsers] at hs
            | invalid raw => rw [hc] at hp; simp [parseUsers] at hp
            | json v =>
              rw [hc] at hs hp
              simp only [parseUsers, Except.ok.injEq] at hp
              subst hp
              cases v with
              | arr items =>
                simp only [setUsers, spread, reparse_arr, Item.json.injEq,
                  JsonVal.arr.injEq] at hs
                have hlen := congrArg List.length hs
                simp at hlen
              | null => simp [usersSome] at husers
              | bool b => simp [usersSome] at husers
              | num n => simp [usersSome] at husers
              | str t => simp [usersSome] at husers
              | obj props => simp [usersSome] at husers
  · refine ⟨items, hu, hpw, hsome, ?_⟩
    rw [hrun]
    simp [setUsers, reparse_arr, reparse_newEntry]


/-- C10 as stated fails in three places.  (a) After `a` registered with `b`, a
Login-view submit with `a` and the empty password, which differs from `b`, ends with
the required-fields error and not with `Invalid username or password.`  (b) Over the
stored text `[1e400]`, which parses to `[Infinity]`, registering `a` with `b`
succeeds and writes `[null, entry]`; the Login-view submit with `a` and `b` then
reads `username` of `null`, ends in the generic error and schedules nothing.  (c) The
stored list of the two entries with the usernames `Infinity` and `null` has pairwise
distinct usernames; after `x` registered with `y` both are `null`. -/
theorem login_empty_password :
    ((handleAuthAction (samplePage false "a" "b" Item.missing)).ui.success =
        "Registration successful! Please log in." ∧
      ("" : String) ≠ "b" ∧
      (handleAuthAction ⟨⟨true, "a", "", "", ""⟩,
          (handleAuthAction (samplePage false "a" "b" Item.missing)).stored, [], 0, []⟩).ui.error =
        "Username and password are required." ∧
      (handleAuthAction ⟨⟨true, "a", "", "", ""⟩,
          (handleAuthAction (samplePage false "a" "b" Item.missing)).stored, [], 0, []⟩).ui.error ≠
        "Invalid username or password.") ∧
    ((handleAuthAction (samplePage false "a" "b"
          (Item.json (JsonVal.arr [JsonVal.num infinity])))).ui.success =
        "Registration successful! Please log in." ∧
      (handleAuthAction ⟨⟨true, "a", "b", "", ""⟩,
          (handleAuthAction (samplePage false "a" "b"
            (Item.json (JsonVal.arr [JsonVal.num infinity])))).stored, [], 0, []⟩).ui.success =
        "" ∧
      (handleAuthAction ⟨⟨true, "a", "b", "", ""⟩,
          (handleAuthAction (samplePage false "a" "b"
            (Item.json (JsonVal.arr [JsonVal.num infinity])))).stored, [], 0, []⟩).ui.error =
        "An error occurred. Please try again." ∧
      (handleAuthAction ⟨⟨true, "a", "b", "", ""⟩,
          (handleAuthAction (samplePage false "a" "b"
            (Item.json (JsonVal.arr [JsonVal.num infinity])))).stored, [], 0, []⟩).timers =
        []) ∧
    ((storedUsernames (Item.json (JsonVal.arr
          [JsonVal.obj [("username", JsonVal.num infinity)],
            JsonVal.obj [("username", JsonVal.null)]]))).Nodup ∧
      storedUsernames (handleAuthAction (samplePage false "x" "y" (Item.json (JsonVal.arr
          [JsonVal.obj [("username", JsonVal.num infinity)],
            JsonVal.obj [("username", JsonVal.null)]])))).stored =
        [some JsonVal.null, some JsonVal.null, some (JsonVal.str "x")] ∧
      ¬ (storedUsernames (handleAuthAction (samplePage false "x" "y" (Item.json (JsonVal.arr
          [JsonVal.obj [("username", JsonVal.num infinity)],
            JsonVal.obj [("username", JsonVal.null)]])))).stored).Nodup) := by
  refine ⟨⟨rfl, by decide, rfl, ?_⟩, ⟨rfl, rfl, rfl, rfl⟩, ?_, rfl, ?_⟩
  · have h : (handleAuthAction ⟨⟨true, "a", "", "", ""⟩,
          (handleAuthAction (samplePage false "a" "b" Item.missing)).stored, [], 0, []⟩).ui.error =
        "Username and password are required." := rfl
    rw [h]
    decide
  · simp [storedUsernames, storedItems, entryUsername, List.lookup]
  · have h : storedUsernames (handleAuthAction (samplePage false "x" "y" (Item.json (JsonVal.arr
          [JsonVal.obj [("username", JsonVal.num infinity)],
            JsonVal.obj [("username", JsonVal.null)]])))).stored =
        [some JsonVal.null, some JsonVal.null, some (JsonVal.str "x")] := rfl
    rw [h]
    simp

/-- C10, amended. (1) Starting from a stored list whose usernames are pairwise
distinct, also as `JSON.stringify` writes them back, they remain pairwise distinct
after any sequence of page events (typing, toggling the view, submitting, the Google
button).  (2) A Login-view submit never changes the stored item.  (3) After a
Register-view submit that succeeded for `u` and `p`, on any page with the stored item
it left, provided that stored list has no `null` entry: a Login-view submit with `u`
and `p` sets `success` to `Login successful!` and schedules `onLoginSuccess` once,
with a delay of 1000 ms, and a Login-view submit with `u` and a non-empty password
other than `p` sets the error `Invalid username or password.` and schedules
nothing. -/
theorem client_round_trip :
    (∀ (c : Client) (events : List Event), (storedUsernames c.stored).Nodup →
      (storedUsernames (rewritten c.stored)).Nodup →
      (storedUsernames (c.run events).stored).Nodup) ∧
    (∀ c : Client, c.ui.isLoginView = true → (handleAuthAction c).stored = c.stored) ∧
    (∀ c c2 : Client, c.ui.isLoginView = false → (handleAuthAction c).ui.success ≠ "" →
      c2.stored = (handleAuthAction c).stored →
      (∀ l, storedItems c2.stored = some l → ∀ e ∈ l, e ≠ JsonVal.null) →
      c2.ui.isLoginView = true → c2.ui.username = c.ui.username →
      (c2.ui.password = c.ui.password →
        (handleAuthAction c2).ui.success = "Login successful!" ∧
        (handleAuthAction c2).ui.error = "" ∧
        (handleAuthAction c2).timers = c2.timers ++ [1000] ∧
        (handleAuthAction c2).entered = c2.entered) ∧
      (c2.ui.password ≠ c.ui.password → c2.ui.password ≠ "" →
        (handleAuthAction c2).ui.error = "Invalid username or password." ∧
        (handleAuthAction c2).ui.success = "" ∧
        (handleAuthAction c2).timers = c2.timers ∧
        (handleAuthAction c2).entered = c2.entered)) := by
  refine ⟨fun c events h1 h2 => (run_nodup events c h1 h2).1, ?_, ?_⟩
  · intro c hv
    rcases handleAuthAction_stored c with h | ⟨items, hv2, _⟩
    · exact h
    · rw [hv] at hv2; exact absurd hv2 (by decide)
  · intro c c2 hv hsucc hst hnn hv2 hu2
    obtain ⟨items, hu, hpw, hsome, hstored⟩ := register_succeeded c hv hsucc
    have hall := someItems_false _ items hsome
    have hp2 : parseUsers c2.stored =
        Except.ok (JsonVal.arr (items.map JsonVal.reparse ++
          [newEntry c.ui.username c.ui.password])) := by
      rw [hst, hstored]; rfl
    have hnull : ∀ e ∈ items.map JsonVal.reparse, e ≠ JsonVal.null := by
      intro e he
      exact hnn _ (storedItems_of_parseUsers _ _ hp2) e (List.mem_append_left _ he)
    have hother : ∀ q, ∀ e ∈ items.map JsonVal.reparse,
        loginMatch c.ui.username q e = Except.ok false := by
      intro q e he
      obtain ⟨e0, he0, rfl⟩ := List.mem_map.mp he
      exact loginMatch_other _ q _ (hnull _ he)
        (entryUsername_reparse_ne e0 _ (nameMatch_false _ e0 (hall e0 he0)))
    have hu2ne : c2.ui.username ≠ "" := by rw [hu2]; exact hu
    constructor
    · intro hpeq
      have hp2ne : c2.ui.password ≠ "" := by rw [hpeq]; exact hpw
      have hfields : ¬ (c2.ui.username = "" ∨ c2.ui.password = "") :=
        not_or.mpr ⟨hu2ne, hp2ne⟩
      have hfind : usersFind (JsonVal.arr (items.map JsonVal.reparse ++
            [newEntry c.ui.username c.ui.password]))
          (loginMatch c2.ui.username c2.ui.password) =
          Except.ok (some (newEntry c.ui.username c.ui.password)) := by
        rw [hu2, hpeq]
        have h := findItems_appended c.ui.username c.ui.password c.ui.password _
          (hother c.ui.password)
        simpa [usersFind] using h
      have htruthy : truthyOpt (some (newEntry c.ui.username c.ui.password)) = true := rfl
      simp only [handleAuthAction, authTry, hfields, if_false, hp2, hv2, if_true, hfind,
        htruthy]
      simp
    · intro hpne hp2ne
      have hfields : ¬ (c2.ui.username = "" ∨ c2.ui.password = "") :=
        not_or.mpr ⟨hu2ne, hp2ne⟩
      have hne : ¬ c.ui.password = c2.ui.password := fun h => hpne h.symm
      have hfind : usersFind (JsonVal.arr (items.map JsonVal.reparse ++
            [newEntry c.ui.username c.ui.password]))
          (loginMatch c2.ui.username c2.ui.password) = Except.ok none := by
        rw [hu2]
        have h := findItems_appended c.ui.username c.ui.password c2.ui.password _
          (hother c2.ui.password)
        simpa [usersFind, hne] using h
      have hfalsy : truthyOpt none = false := rfl
      simp only [handleAuthAction, authTry, hfields, if_false, hp2, hv2, if_true, hfind,
        hfalsy, Bool.false_eq_true]
      simp

/-- Witness of C10, amended: `a` registers with `b` on an empty store, then logs in
with `a` and `b`. -/
theorem client_round_trip_witness :
    (handleAuthAction ⟨⟨true, "a", "b", "", ""⟩,
        (handleAuthAction (samplePage false "a" "b" Item.missing)).stored, [], 0, []⟩).ui.success =
      "Login successful!" ∧
    (handleAuthAction ⟨⟨true, "a", "b", "", ""⟩,
        (handleAuthAction (samplePage false "a" "b" Item.missing)).stored, [], 0, []⟩).timers =
      [1000] :=
  ⟨((client_round_trip.2.2 (samplePage false "a" "b" Item.missing)
      ⟨⟨true, "a", "b", "", ""⟩,
        (handleAuthAction (samplePage false "a" "b" Item.missing)).stored, [], 0, []⟩
      rfl (by decide) rfl
      (fun l hl e he => by
        have h : l = [newEntry "a" "b"] := (Option.some.inj hl).symm
        subst h
        simp [newEntry] at he
        subst he
        simp)
      rfl rfl).1 rfl).1,
    ((client_round_trip.2.2 (samplePage false "a" "b" Item.missing)
      ⟨⟨true, "a", "b", "", ""⟩,
        (handleAuthAction (samplePage false "a" "b" Item.missing)).stored, [], 0, []⟩
      rfl (by decide) rfl
      (fun l hl e he => by
        have h : l = [newEntry "a" "b"] := (Option.some.inj hl).symm
        subst h
        simp [newEntry] at he
        subst he
        simp)
      rfl rfl).1 rfl).2.2.1⟩

end Irrigation
